import Mathlib

/-
Verification development for the tasmil-indexer-aptos stream-to-aggregate
pipeline.  The Rust sources are shallowly embedded: `BigDecimal` values
become `ℚ` (every arithmetic operation the pipeline performs on them —
addition, subtraction, multiplication, and division by a power of ten or
by 10000 — is exact in decimal arithmetic, hence exact in `ℚ`),
`NaiveDateTime` / `DateTime<Utc>` values become `ℤ` counts of seconds,
`Option<BigDecimal>` columns become `Option ℚ`, and the keyed Postgres
tables become either keyed functional maps (for the upsert paths, which
access rows only through their unique key) or lists of rows (for the
cleanup paths, which scan whole tables).
-/

namespace Tasmil

/-- Substring test on character lists: true when the pattern occurs
contiguously.  Auxiliary for `strContains`. -/
def listContainsAux : List Char → List Char → Bool
  | _, [] => true
  | [], _ :: _ => false
  | c :: rest, p :: ps => (List.isPrefixOf (p :: ps) (c :: rest)) || listContainsAux rest (p :: ps)

/-- Model of Rust `str::contains` for plain (non-regex) patterns. -/
def strContains (s pat : String) : Bool :=
  listContainsAux s.data pat.data

/-- Model of `BigDecimal::from_str` restricted to the optionally-signed
integer literals that appear in this development (the Rust parser also
accepts fractional and exponent forms, which never occur here); any string
containing a non-digit after the optional sign fails to parse, exactly as
in Rust. -/
def parseBigDecimal (s : String) : Option ℚ :=
  let cs := s.data
  let p := match cs with
    | '-' :: rest => (true, rest)
    | _ => (false, cs)
  if p.2 ≠ [] ∧ p.2.all (·.isDigit) then
    let n : ℕ := p.2.foldl (fun acc c => acc * 10 + (c.toNat - '0'.toNat)) 0
    some (if p.1 then -(n : ℚ) else (n : ℚ))
  else none

namespace Cellana

/-- Token type constants from `processors/events/cellana/constants.rs`. -/
def APT_COIN_TYPE : String := "0x1::aptos_coin::AptosCoin"

def USDC_COIN_TYPE : String := "0xbae207659db88bea0cbead6da0ed00aac12edcdda169e591cd41c94180b46f3b"

def USDT_COIN_TYPE : String := "0x357b0b74bc833e95a115ad22604854d6b0fca151cecd94111770e5d6ffc9dc2b"

def APT_DECIMALS : ℕ := 8

def USDC_DECIMALS : ℕ := 6

def USDT_DECIMALS : ℕ := 6

end Cellana

namespace Thala

/-- Token type constants from `processors/events/thala/constants.rs`. -/
def APT_COIN_TYPE : String := "0xa"

def USDC_COIN_TYPE : String := "0xbae207659db88bea0cbead6da0ed00aac12edcdda169e591cd41c94180b46f3b"

def USDT_COIN_TYPE : String := "0x357b0b74bc833e95a115ad22604854d6b0fca151cecd94111770e5d6ffc9dc2b"

def APT_DECIMALS : ℕ := 8

def USDC_DECIMALS : ℕ := 6

def USDT_DECIMALS : ℕ := 6

end Thala

namespace Hyperion

/-- Token type constants from `processors/events/hyperion/constants.rs`. -/
def APT_COIN_TYPE : String := "0xa"

def USDC_COIN_TYPE : String := "0xbae207659db88bea0cbead6da0ed00aac12edcdda169e591cd41c94180b46f3b"

def USDT_COIN_TYPE : String := "0x357b0b74bc833e95a115ad22604854d6b0fca151cecd94111770e5d6ffc9dc2b"

def APT_DECIMALS : ℕ := 8

def USDC_DECIMALS : ℕ := 6

def USDT_DECIMALS : ℕ := 6

end Hyperion

namespace Sushiswap

/-- Token type constants from `processors/events/sushiswap/constants.rs`. -/
def APT_COIN_TYPE : String := "0x1::aptos_coin::AptosCoin"

def IZUSDT_COIN_TYPE : String := "0xf22bede237a07e121b56d91a491eb7bcdfd1f5907926a9e58338f964a01b17fa::asset::USDT"

def IZUSDC_COIN_TYPE : String := "0xf22bede237a07e121b56d91a491eb7bcdfd1f5907926a9e58338f964a01b17fa::asset::USDC"

def WHUSDC_COIN_TYPE : String := "0x5e156f1207d0ebfa19a9eeff00d62a282278fb8719f4fab3a586a0a2c0fffbea::coin::T"

def IZWETH_COIN_TYPE : String := "0xf22bede237a07e121b56d91a491eb7bcdfd1f5907926a9e58338f964a01b17fa::asset::WETH"

def APT_DECIMALS : ℕ := 8

def USDT_DECIMALS : ℕ := 6

def USDC_DECIMALS : ℕ := 6

def WETH_DECIMALS : ℕ := 6

end Sushiswap

namespace Liquidswap

/-- Token type constants from `processors/events/liquidswap/constants.rs`. -/
def APT_COIN_TYPE : String := "0x1::aptos_coin::AptosCoin"

def IZUSDC_COIN_TYPE : String := "0xf22bede237a07e121b56d91a491eb7bcdfd1f5907926a9e58338f964a01b17fa::asset::USDC"

def IZUSDT_COIN_TYPE : String := "0xf22bede237a07e121b56d91a491eb7bcdfd1f5907926a9e58338f964a01b17fa::asset::USDT"

def WHUSDC_COIN_TYPE : String := "0x5e156f1207d0ebfa19a9eeff00d62a282278fb8719f4fab3a586a0a2c0fffbea::coin::T"

def WHUSDT_COIN_TYPE : String := "0x1f9e145308ba2fbd4737c6a08204087f29f5d6bb7d76969cdd79d5fc95e0ae3::coin::T"

def IZWETH_COIN_TYPE : String := "0xf22bede237a07e121b56d91a491eb7bcdfd1f5907926a9e58338f964a01b17fa::asset::WETH"

def WHWETH_COIN_TYPE : String := "0xcc8a89c8dce9693d354449f1f73e60e14e347417854f029db5bc8e7454008abb::coin::T"

def APT_DECIMALS : ℕ := 8

def USDC_DECIMALS : ℕ := 6

def USDT_DECIMALS : ℕ := 6

def WETH_DECIMALS : ℕ := 6

end Liquidswap

/-! Token registry dispatch, from `VolumeCalculator::token_type_to_coin`
and `VolumeCalculator::normalize_token_amount`
(`processors/events/volume_calculator.rs`).  The four branch conditions
are given names so that theorems can discharge them one at a time; their
bodies follow the source condition for the corresponding branch verbatim. -/

/-- Condition of the APT branch of `token_type_to_coin` /
`normalize_token_amount`: exact equality with one of the per-protocol APT
coin-type constants. -/
def isAptTokenCond (token_type : String) : Bool :=
  token_type == Cellana.APT_COIN_TYPE ||
  token_type == Thala.APT_COIN_TYPE ||
  token_type == Hyperion.APT_COIN_TYPE ||
  token_type == Liquidswap.APT_COIN_TYPE ||
  token_type == Sushiswap.APT_COIN_TYPE

/-- Condition of the USDC branch: substring match on "USDC" or equality
with one of the per-protocol USDC-family constants. -/
def isUsdcTokenCond (token_type : String) : Bool :=
  strContains token_type "USDC" ||
  token_type == Cellana.USDC_COIN_TYPE ||
  token_type == Thala.USDC_COIN_TYPE ||
  token_type == Hyperion.USDC_COIN_TYPE ||
  token_type == Sushiswap.IZUSDC_COIN_TYPE ||
  token_type == Sushiswap.WHUSDC_COIN_TYPE ||
  token_type == Liquidswap.IZUSDC_COIN_TYPE ||
  token_type == Liquidswap.WHUSDC_COIN_TYPE

/-- Condition of the USDT branch: substring match on "USDT" or equality
with one of the per-protocol USDT-family constants. -/
def isUsdtTokenCond (token_type : String) : Bool :=
  strContains token_type "USDT" ||
  token_type == Cellana.USDT_COIN_TYPE ||
  token_type == Thala.USDT_COIN_TYPE ||
  token_type == Hyperion.USDT_COIN_TYPE ||
  token_type == Sushiswap.IZUSDT_COIN_TYPE ||
  token_type == Liquidswap.IZUSDT_COIN_TYPE ||
  token_type == Liquidswap.WHUSDT_COIN_TYPE

/-- Condition of the WETH branch: substring match on "WETH" or equality
with one of the per-protocol WETH-family constants. -/
def isWethTokenCond (token_type : String) : Bool :=
  strContains token_type "WETH" ||
  token_type == Sushiswap.IZWETH_COIN_TYPE ||
  token_type == Liquidswap.IZWETH_COIN_TYPE ||
  token_type == Liquidswap.WHWETH_COIN_TYPE

/-- Model of `VolumeCalculator::token_type_to_coin`: canonical coin name
for a raw on-chain token identifier, or `none` for untracked tokens. -/
def token_type_to_coin (token_type : String) : Option String :=
  if isAptTokenCond token_type then some "APT"
  else if isUsdcTokenCond token_type then some "USDC"
  else if isUsdtTokenCond token_type then some "USDT"
  else if isWethTokenCond token_type then some "WETH"
  else none

/-- Model of `VolumeCalculator::normalize_token_amount`: divide the raw
amount by the decimal divisor selected by the same token-detection logic
as `token_type_to_coin`; unknown tokens get divisor 1. -/
def normalize_token_amount (token_type : String) (raw_amount : ℚ) : ℚ :=
  let divisor : ℚ :=
    if isAptTokenCond token_type then (10 : ℚ) ^ (8 : ℕ)
    else if isUsdcTokenCond token_type then (10 : ℚ) ^ (6 : ℕ)
    else if isUsdtTokenCond token_type then (10 : ℚ) ^ (6 : ℕ)
    else if isWethTokenCond token_type then (10 : ℚ) ^ (6 : ℕ)
    else 1
  raw_amount / divisor

/-! Bucket calculator, from `processors/events/bucket_calculator.rs`.
Timestamps are Unix seconds (`ℤ`); a `NaiveDateTime` carrying a GMT+7
wall-clock value is represented by its count of seconds since the local
epoch 1970-01-01T00:00:00 (GMT+7).  With that representation chrono's
`date_naive` is floor division by 86400 and `hour` is the Euclidean
remainder divided by 3600, for the whole of chrono's representable
range. -/

/-- Seconds of the GMT+7 offset (`FixedOffset::east_opt(7 * 3600)`). -/
def gmt7OffsetSecs : ℤ := 7 * 3600

/-- Smallest Unix-second timestamp representable by a chrono
`DateTime` (midnight of `NaiveDate::MIN`, year -262143). -/
def chronoMinTs : ℤ := -8334601315200

/-- Largest Unix-second timestamp representable by a chrono
`DateTime` (last second of `NaiveDate::MAX`, year 262142). -/
def chronoMaxTs : ℤ := 8210266876799

/-- Model of `DateTime::from_timestamp(t, 0).unwrap_or_else(epoch)` as it
is used by the bucket calculator and the 24-hour filters: out-of-range
seconds fall back to the Unix epoch. -/
def fromTimestampOrEpoch (t : ℤ) : ℤ :=
  if chronoMinTs ≤ t ∧ t ≤ chronoMaxTs then t else 0

/-- Model of `BucketCalculator::calculate_bucket_range`: the returned pair
holds the GMT+7 wall-clock seconds of `bucket_start` and `bucket_end`.
Division and remainder are Euclidean, matching chrono's calendar
arithmetic for the positive constants involved. -/
def calculate_bucket_range (timestamp_seconds : ℤ) : ℤ × ℤ :=
  let utc := fromTimestampOrEpoch timestamp_seconds
  let gmt7 := utc + gmt7OffsetSecs
  let day := gmt7 / 86400
  let hour := gmt7 % 86400 / 3600
  let bucket_start_hour := hour / 2 * 2
  let bucket_end_hour := bucket_start_hour + 2
  let bucket_start := day * 86400 + bucket_start_hour * 3600
  let bucket_end :=
    if bucket_end_hour ≥ 24 then (day + 1) * 86400
    else day * 86400 + bucket_end_hour * 3600
  (bucket_start, bucket_end)

/-- Model of the `is_within_24h` helpers of `volume_calculator.rs` and
`bucket_calculator.rs`: the (range-clamped) transaction time is at least
the current time minus 24 hours. -/
def is_within_24h (now txn_timestamp_seconds : ℤ) : Bool :=
  decide (now - 24 * 3600 ≤ fromTimestampOrEpoch txn_timestamp_seconds)

/-! Cellana processor, from `processors/events/cellana/processor.rs` of
the `aptos-indexer-processor` crate. -/

namespace Cellana

/-- Model of Cellana `SwapData`; amounts stay as the strings carried in
the event JSON, `swap_fee_bps` has already been filled from the matching
`LiquidityPool` write-resource. -/
structure SwapData where
  amount_in : String
  amount_out : String
  from_token : String
  to_token : String
  pool : String
  swap_fee_bps : ℕ

/-- Model of Cellana `PoolVolume` (the `Default` impl zero-initializes
every numeric field and leaves the pool id empty). -/
structure PoolVolume where
  pool : String := ""
  apt_volume_24h : ℚ := 0
  usdc_volume_24h : ℚ := 0
  usdt_volume_24h : ℚ := 0
  apt_fee_24h : ℚ := 0
  usdc_fee_24h : ℚ := 0
  usdt_fee_24h : ℚ := 0
  apt_buy_volume_24h : ℚ := 0
  apt_sell_volume_24h : ℚ := 0
  usdc_buy_volume_24h : ℚ := 0
  usdc_sell_volume_24h : ℚ := 0
  usdt_buy_volume_24h : ℚ := 0
  usdt_sell_volume_24h : ℚ := 0

/-- Model of `CellanaProcessor::process_apt_usdc_swap` acting on one pool
entry; the two directions subtract the bps fee from the input side and
credit the output side gross. -/
def process_apt_usdc_swap (pool_entry : PoolVolume) (swap_data : SwapData)
    (raw_amount_in raw_amount_out fee_rate : ℚ) : PoolVolume :=
  if swap_data.from_token == APT_COIN_TYPE ∧ swap_data.to_token == USDC_COIN_TYPE then
    let apt_amount := raw_amount_in / (10 : ℚ) ^ APT_DECIMALS
    let usdc_amount := raw_amount_out / (10 : ℚ) ^ USDC_DECIMALS
    let apt_fee := apt_amount * fee_rate
    let apt_net_volume := apt_amount - apt_fee
    { pool_entry with
      apt_volume_24h := pool_entry.apt_volume_24h + apt_net_volume
      usdc_volume_24h := pool_entry.usdc_volume_24h + usdc_amount
      apt_fee_24h := pool_entry.apt_fee_24h + apt_fee
      apt_sell_volume_24h := pool_entry.apt_sell_volume_24h + apt_net_volume
      usdc_buy_volume_24h := pool_entry.usdc_buy_volume_24h + usdc_amount }
  else if swap_data.from_token == USDC_COIN_TYPE ∧ swap_data.to_token == APT_COIN_TYPE then
    let usdc_amount := raw_amount_in / (10 : ℚ) ^ USDC_DECIMALS
    let apt_amount := raw_amount_out / (10 : ℚ) ^ APT_DECIMALS
    let usdc_fee := usdc_amount * fee_rate
    let usdc_net_volume := usdc_amount - usdc_fee
    { pool_entry with
      apt_volume_24h := pool_entry.apt_volume_24h + apt_amount
      usdc_volume_24h := pool_entry.usdc_volume_24h + usdc_net_volume
      usdc_fee_24h := pool_entry.usdc_fee_24h + usdc_fee
      usdc_sell_volume_24h := pool_entry.usdc_sell_volume_24h + usdc_net_volume
      apt_buy_volume_24h := pool_entry.apt_buy_volume_24h + apt_amount }
  else pool_entry

/-- Model of `CellanaProcessor::process_usdt_usdc_swap`. -/
def process_usdt_usdc_swap (pool_entry : PoolVolume) (swap_data : SwapData)
    (raw_amount_in raw_amount_out fee_rate : ℚ) : PoolVolume :=
  if swap_data.from_token == USDT_COIN_TYPE ∧ swap_data.to_token == USDC_COIN_TYPE then
    let usdt_amount := raw_amount_in / (10 : ℚ) ^ USDT_DECIMALS
    let usdc_amount := raw_amount_out / (10 : ℚ) ^ USDC_DECIMALS
    let usdt_fee := usdt_amount * fee_rate
    let usdt_net_volume := usdt_amount - usdt_fee
    { pool_entry with
      usdt_volume_24h := pool_entry.usdt_volume_24h + usdt_net_volume
      usdc_volume_24h := pool_entry.usdc_volume_24h + usdc_amount
      usdt_fee_24h := pool_entry.usdt_fee_24h + usdt_fee
      usdt_sell_volume_24h := pool_entry.usdt_sell_volume_24h + usdt_net_volume
      usdc_buy_volume_24h := pool_entry.usdc_buy_volume_24h + usdc_amount }
  else if swap_data.from_token == USDC_COIN_TYPE ∧ swap_data.to_token == USDT_COIN_TYPE then
    let usdc_amount := raw_amount_in / (10 : ℚ) ^ USDC_DECIMALS
    let usdt_amount := raw_amount_out / (10 : ℚ) ^ USDT_DECIMALS
    let usdc_fee := usdc_amount * fee_rate
    let usdc_net_volume := usdc_amount - usdc_fee
    { pool_entry with
      usdt_volume_24h := pool_entry.usdt_volume_24h + usdt_amount
      usdc_volume_24h := pool_entry.usdc_volume_24h + usdc_net_volume
      usdc_fee_24h := pool_entry.usdc_fee_24h + usdc_fee
      usdc_sell_volume_24h := pool_entry.usdc_sell_volume_24h + usdc_net_volume
      usdt_buy_volume_24h := pool_entry.usdt_buy_volume_24h + usdt_amount }
  else pool_entry

/-- Model of `CellanaProcessor::process_apt_usdt_swap`. -/
def process_apt_usdt_swap (pool_entry : PoolVolume) (swap_data : SwapData)
    (raw_amount_in raw_amount_out fee_rate : ℚ) : PoolVolume :=
  if swap_data.from_token == APT_COIN_TYPE ∧ swap_data.to_token == USDT_COIN_TYPE then
    let apt_amount := raw_amount_in / (10 : ℚ) ^ APT_DECIMALS
    let usdt_amount := raw_amount_out / (10 : ℚ) ^ USDT_DECIMALS
    let apt_fee := apt_amount * fee_rate
    let apt_net_volume := apt_amount - apt_fee
    { pool_entry with
      apt_volume_24h := pool_entry.apt_volume_24h + apt_net_volume
      usdt_volume_24h := pool_entry.usdt_volume_24h + usdt_amount
      apt_fee_24h := pool_entry.apt_fee_24h + apt_fee
      apt_sell_volume_24h := pool_entry.apt_sell_volume_24h + apt_net_volume
      usdt_buy_volume_24h := pool_entry.usdt_buy_volume_24h + usdt_amount }
  else if swap_data.from_token == USDT_COIN_TYPE ∧ swap_data.to_token == APT_COIN_TYPE then
    let usdt_amount := raw_amount_in / (10 : ℚ) ^ USDT_DECIMALS
    let apt_amount := raw_amount_out / (10 : ℚ) ^ APT_DECIMALS
    let usdt_fee := usdt_amount * fee_rate
    let usdt_net_volume := usdt_amount - usdt_fee
    { pool_entry with
      apt_volume_24h := pool_entry.apt_volume_24h + apt_amount
      usdt_volume_24h := pool_entry.usdt_volume_24h + usdt_net_volume
      usdt_fee_24h := pool_entry.usdt_fee_24h + usdt_fee
      usdt_sell_volume_24h := pool_entry.usdt_sell_volume_24h + usdt_net_volume
      apt_buy_volume_24h := pool_entry.apt_buy_volume_24h + apt_amount }
  else pool_entry

/-- Model of `CellanaProcessor::process_swap`: the pool entry is created
(zero-initialized) by `entry().or_insert_with` before anything is parsed,
amounts that fail `BigDecimal::from_str` are replaced by zero
(`unwrap_or_else`), the bps fee becomes the rate `fee_bps / 10000`, and
the entry — updated or not — stays in the map. -/
def process_swap (pool_volumes : String → Option PoolVolume) (swap_data : SwapData) :
    String → Option PoolVolume :=
  let pool_entry := (pool_volumes swap_data.pool).getD { pool := swap_data.pool }
  let raw_amount_in := (parseBigDecimal swap_data.amount_in).getD 0
  let raw_amount_out := (parseBigDecimal swap_data.amount_out).getD 0
  let fee_rate := (swap_data.swap_fee_bps : ℚ) / 10000
  let updated :=
    if (swap_data.from_token == APT_COIN_TYPE ∧ swap_data.to_token == USDC_COIN_TYPE) ∨
       (swap_data.from_token == USDC_COIN_TYPE ∧ swap_data.to_token == APT_COIN_TYPE) then
      process_apt_usdc_swap pool_entry swap_data raw_amount_in raw_amount_out fee_rate
    else if (swap_data.from_token == USDT_COIN_TYPE ∧ swap_data.to_token == USDC_COIN_TYPE) ∨
       (swap_data.from_token == USDC_COIN_TYPE ∧ swap_data.to_token == USDT_COIN_TYPE) then
      process_usdt_usdc_swap pool_entry swap_data raw_amount_in raw_amount_out fee_rate
    else if (swap_data.from_token == APT_COIN_TYPE ∧ swap_data.to_token == USDT_COIN_TYPE) ∨
       (swap_data.from_token == USDT_COIN_TYPE ∧ swap_data.to_token == APT_COIN_TYPE) then
      process_apt_usdt_swap pool_entry swap_data raw_amount_in raw_amount_out fee_rate
    else pool_entry
  fun k => if k == swap_data.pool then some updated else pool_volumes k

end Cellana

/-! Per-coin swap-event records, from `bucket_calculator.rs` and the
coin-volume methods of `volume_calculator.rs`. -/

/-- Model of `CoinVolumeData`. -/
structure CoinVolumeData where
  coin : String
  volume : ℚ

/-- Model of `SwapEventData`. -/
structure SwapEventData where
  timestamp_seconds : ℤ
  coin_volumes : List CoinVolumeData

/-- Model of the `NewCoinVolume24h` insertable row. -/
structure NewCoinVolume24h where
  coin : String
  buy_volume : Option ℚ
  sell_volume : Option ℚ

/-- Model of `VolumeCalculator::extract_coin_volumes_from_cellana`: when
both amounts parse, one `CoinVolumeData` per side whose token
canonicalizes, carrying the normalized (gross) amount of that side. -/
def extract_coin_volumes_from_cellana (swap_data : Cellana.SwapData) : List CoinVolumeData :=
  match parseBigDecimal swap_data.amount_in, parseBigDecimal swap_data.amount_out with
  | some amount_in, some amount_out =>
    ((token_type_to_coin swap_data.from_token).map
      (fun coin => CoinVolumeData.mk coin
        (normalize_token_amount swap_data.from_token amount_in))).toList ++
    ((token_type_to_coin swap_data.to_token).map
      (fun coin => CoinVolumeData.mk coin
        (normalize_token_amount swap_data.to_token amount_out))).toList
  | _, _ => []

/-- Total volume accumulated for one coin across a batch's swap events
(the content of the `coin_volumes` HashMap entry for that coin in
`calculate_24h_coin_volumes`). -/
def coinVolumeTotal (swap_events : List SwapEventData) (coin : String) : ℚ :=
  (swap_events.map (fun e =>
    ((e.coin_volumes.filter (fun cv => cv.coin == coin)).map (·.volume)).sum)).sum

/-- Model of `VolumeCalculator::calculate_24h_coin_volumes`, viewed as the
keyed content of the emitted `Vec<NewCoinVolume24h>`: a record exists
exactly for the coins appearing in some event, and — quoting the source
comment "For now, treat all volume as both buy and sell" — both columns
carry the same per-coin total. -/
def calculate_24h_coin_volumes (swap_events : List SwapEventData) :
    String → Option NewCoinVolume24h :=
  fun coin =>
    if swap_events.any (fun e => e.coin_volumes.any (fun cv => cv.coin == coin)) then
      some ⟨coin, some (coinVolumeTotal swap_events coin),
        some (coinVolumeTotal swap_events coin)⟩
    else none

/-! Thala processor, from `processors/events/thala/processor.rs` of the
`aptos-indexer-processor-example` crate. -/

namespace Thala

/-- Model of Thala `SwapData` (direction already resolved from
`idx_in` / `idx_out` by `extract_swap_data`). -/
structure SwapData where
  amount_in : String
  amount_out : String
  from_token : String
  to_token : String
  pool : String
  protocol_fee_amount : String

/-- Model of Thala `PoolVolume` with its zeroing `Default`. -/
structure PoolVolume where
  pool : String := ""
  apt_volume_24h : ℚ := 0
  usdc_volume_24h : ℚ := 0
  usdt_volume_24h : ℚ := 0
  apt_fee_24h : ℚ := 0
  usdc_fee_24h : ℚ := 0
  usdt_fee_24h : ℚ := 0
  apt_buy_volume_24h : ℚ := 0
  apt_sell_volume_24h : ℚ := 0
  usdc_buy_volume_24h : ℚ := 0
  usdc_sell_volume_24h : ℚ := 0
  usdt_buy_volume_24h : ℚ := 0
  usdt_sell_volume_24h : ℚ := 0

/-- Model of `ThalaProcessor::process_swap_pair`, the unified update: the
input currency's total, fee and sell columns get `net = in/div - fee/div`
and `fee/div`; the output currency's total and buy columns get the gross
`out/div`. -/
def process_swap_pair (pool_entry : PoolVolume) (from_currency to_currency : String)
    (raw_amount_in raw_amount_out protocol_fee from_divisor to_divisor : ℚ) : PoolVolume :=
  let from_amount := raw_amount_in / from_divisor
  let to_amount := raw_amount_out / to_divisor
  let fee_amount := protocol_fee / from_divisor
  let net_volume := from_amount - fee_amount
  let e1 :=
    if from_currency == "APT" then
      { pool_entry with
        apt_volume_24h := pool_entry.apt_volume_24h + net_volume
        apt_fee_24h := pool_entry.apt_fee_24h + fee_amount }
    else if from_currency == "USDC" then
      { pool_entry with
        usdc_volume_24h := pool_entry.usdc_volume_24h + net_volume
        usdc_fee_24h := pool_entry.usdc_fee_24h + fee_amount }
    else if from_currency == "USDT" then
      { pool_entry with
        usdt_volume_24h := pool_entry.usdt_volume_24h + net_volume
        usdt_fee_24h := pool_entry.usdt_fee_24h + fee_amount }
    else pool_entry
  let e2 :=
    if to_currency == "APT" then
      { e1 with apt_volume_24h := e1.apt_volume_24h + to_amount }
    else if to_currency == "USDC" then
      { e1 with usdc_volume_24h := e1.usdc_volume_24h + to_amount }
    else if to_currency == "USDT" then
      { e1 with usdt_volume_24h := e1.usdt_volume_24h + to_amount }
    else e1
  let e3 :=
    if from_currency == "APT" then
      { e2 with apt_sell_volume_24h := e2.apt_sell_volume_24h + net_volume }
    else if from_currency == "USDC" then
      { e2 with usdc_sell_volume_24h := e2.usdc_sell_volume_24h + net_volume }
    else if from_currency == "USDT" then
      { e2 with usdt_sell_volume_24h := e2.usdt_sell_volume_24h + net_volume }
    else e2
  if to_currency == "APT" then
    { e3 with apt_buy_volume_24h := e3.apt_buy_volume_24h + to_amount }
  else if to_currency == "USDC" then
    { e3 with usdc_buy_volume_24h := e3.usdc_buy_volume_24h + to_amount }
  else if to_currency == "USDT" then
    { e3 with usdt_buy_volume_24h := e3.usdt_buy_volume_24h + to_amount }
  else e3

/-- Model of `ThalaProcessor::process_thala_swap`: dispatch the six
supported (from, to) coin-type pairs to `process_swap_pair` with the
matching currency names and divisors; unsupported pairs are skipped. -/
def process_thala_swap (pool_entry : PoolVolume) (swap_data : SwapData)
    (raw_amount_in raw_amount_out protocol_fee : ℚ) : PoolVolume :=
  if swap_data.from_token == APT_COIN_TYPE ∧ swap_data.to_token == USDC_COIN_TYPE then
    process_swap_pair pool_entry "APT" "USDC" raw_amount_in raw_amount_out protocol_fee
      ((10 : ℚ) ^ APT_DECIMALS) ((10 : ℚ) ^ USDC_DECIMALS)
  else if swap_data.from_token == USDC_COIN_TYPE ∧ swap_data.to_token == APT_COIN_TYPE then
    process_swap_pair pool_entry "USDC" "APT" raw_amount_in raw_amount_out protocol_fee
      ((10 : ℚ) ^ USDC_DECIMALS) ((10 : ℚ) ^ APT_DECIMALS)
  else if swap_data.from_token == USDT_COIN_TYPE ∧ swap_data.to_token == USDC_COIN_TYPE then
    process_swap_pair pool_entry "USDT" "USDC" raw_amount_in raw_amount_out protocol_fee
      ((10 : ℚ) ^ USDT_DECIMALS) ((10 : ℚ) ^ USDC_DECIMALS)
  else if swap_data.from_token == USDC_COIN_TYPE ∧ swap_data.to_token == USDT_COIN_TYPE then
    process_swap_pair pool_entry "USDC" "USDT" raw_amount_in raw_amount_out protocol_fee
      ((10 : ℚ) ^ USDC_DECIMALS) ((10 : ℚ) ^ USDT_DECIMALS)
  else if swap_data.from_token == APT_COIN_TYPE ∧ swap_data.to_token == USDT_COIN_TYPE then
    process_swap_pair pool_entry "APT" "USDT" raw_amount_in raw_amount_out protocol_fee
      ((10 : ℚ) ^ APT_DECIMALS) ((10 : ℚ) ^ USDT_DECIMALS)
  else if swap_data.from_token == USDT_COIN_TYPE ∧ swap_data.to_token == APT_COIN_TYPE then
    process_swap_pair pool_entry "USDT" "APT" raw_amount_in raw_amount_out protocol_fee
      ((10 : ℚ) ^ USDT_DECIMALS) ((10 : ℚ) ^ APT_DECIMALS)
  else pool_entry

/-- Model of `ThalaProcessor::process_swap`: entry created before
parsing, all three decimal strings parsed with `unwrap_or_else(zero)`,
then the unified dispatch; the entry stays in the map either way. -/
def process_swap (pool_volumes : String → Option PoolVolume) (swap_data : SwapData) :
    String → Option PoolVolume :=
  let pool_entry := (pool_volumes swap_data.pool).getD { pool := swap_data.pool }
  let raw_amount_in := (parseBigDecimal swap_data.amount_in).getD 0
  let raw_amount_out := (parseBigDecimal swap_data.amount_out).getD 0
  let protocol_fee := (parseBigDecimal swap_data.protocol_fee_amount).getD 0
  let updated := process_thala_swap pool_entry swap_data raw_amount_in raw_amount_out protocol_fee
  fun k => if k == swap_data.pool then some updated else pool_volumes k

end Thala

/-! Hyperion processor, from `processors/events/hyperion/processor.rs` of
the `aptos-indexer-processor-example` crate. -/

namespace Hyperion

/-- Model of Hyperion `SwapData`. -/
structure SwapData where
  amount_in : String
  amount_out : String
  from_token : String
  to_token : String
  pool_id : String
  protocol_fee_amount : String

/-- Model of Hyperion `PoolVolume` with its zeroing `Default`. -/
structure PoolVolume where
  pool : String := ""
  apt_volume_24h : ℚ := 0
  usdc_volume_24h : ℚ := 0
  usdt_volume_24h : ℚ := 0
  apt_fee_24h : ℚ := 0
  usdc_fee_24h : ℚ := 0
  usdt_fee_24h : ℚ := 0
  apt_buy_volume_24h : ℚ := 0
  apt_sell_volume_24h : ℚ := 0
  usdc_buy_volume_24h : ℚ := 0
  usdc_sell_volume_24h : ℚ := 0
  usdt_buy_volume_24h : ℚ := 0
  usdt_sell_volume_24h : ℚ := 0

/-- Model of `HyperionProcessor::process_swap`: entry created first,
amounts parsed with `unwrap_or_else(zero)`, then one of the four
supported direction branches; each branch adds the gross normalized input
to the input coin's total and sell columns, the gross normalized output
to the output coin's total and buy columns, and the normalized fee to the
input coin's fee column only. -/
def process_swap (pool_volumes : String → Option PoolVolume) (swap_data : SwapData) :
    String → Option PoolVolume :=
  let pool_entry := (pool_volumes swap_data.pool_id).getD { pool := swap_data.pool_id }
  let raw_amount_in := (parseBigDecimal swap_data.amount_in).getD 0
  let raw_amount_out := (parseBigDecimal swap_data.amount_out).getD 0
  let protocol_fee := (parseBigDecimal swap_data.protocol_fee_amount).getD 0
  let updated :=
    if swap_data.from_token == USDT_COIN_TYPE ∧ swap_data.to_token == USDC_COIN_TYPE then
      let usdt_amount := raw_amount_in / (10 : ℚ) ^ USDT_DECIMALS
      let usdc_amount := raw_amount_out / (10 : ℚ) ^ USDC_DECIMALS
      let usdt_fee := protocol_fee / (10 : ℚ) ^ USDT_DECIMALS
      { pool_entry with
        usdt_volume_24h := pool_entry.usdt_volume_24h + usdt_amount
        usdc_volume_24h := pool_entry.usdc_volume_24h + usdc_amount
        usdt_fee_24h := pool_entry.usdt_fee_24h + usdt_fee
        usdt_sell_volume_24h := pool_entry.usdt_sell_volume_24h + usdt_amount
        usdc_buy_volume_24h := pool_entry.usdc_buy_volume_24h + usdc_amount }
    else if swap_data.from_token == USDC_COIN_TYPE ∧ swap_data.to_token == USDT_COIN_TYPE then
      let usdc_amount := raw_amount_in / (10 : ℚ) ^ USDC_DECIMALS
      let usdt_amount := raw_amount_out / (10 : ℚ) ^ USDT_DECIMALS
      let usdc_fee := protocol_fee / (10 : ℚ) ^ USDC_DECIMALS
      { pool_entry with
        usdc_volume_24h := pool_entry.usdc_volume_24h + usdc_amount
        usdt_volume_24h := pool_entry.usdt_volume_24h + usdt_amount
        usdc_fee_24h := pool_entry.usdc_fee_24h + usdc_fee
        usdc_sell_volume_24h := pool_entry.usdc_sell_volume_24h + usdc_amount
        usdt_buy_volume_24h := pool_entry.usdt_buy_volume_24h + usdt_amount }
    else if swap_data.from_token == APT_COIN_TYPE ∧ swap_data.to_token == USDT_COIN_TYPE then
      let apt_amount := raw_amount_in / (10 : ℚ) ^ APT_DECIMALS
      let usdt_amount := raw_amount_out / (10 : ℚ) ^ USDT_DECIMALS
      let apt_fee := protocol_fee / (10 : ℚ) ^ APT_DECIMALS
      { pool_entry with
        apt_volume_24h := pool_entry.apt_volume_24h + apt_amount
        usdt_volume_24h := pool_entry.usdt_volume_24h + usdt_amount
        apt_fee_24h := pool_entry.apt_fee_24h + apt_fee
        apt_sell_volume_24h := pool_entry.apt_sell_volume_24h + apt_amount
        usdt_buy_volume_24h := pool_entry.usdt_buy_volume_24h + usdt_amount }
    else if swap_data.from_token == USDT_COIN_TYPE ∧ swap_data.to_token == APT_COIN_TYPE then
      let usdt_amount := raw_amount_in / (10 : ℚ) ^ USDT_DECIMALS
      let apt_amount := raw_amount_out / (10 : ℚ) ^ APT_DECIMALS
      let usdt_fee := protocol_fee / (10 : ℚ) ^ USDT_DECIMALS
      { pool_entry with
        usdt_volume_24h := pool_entry.usdt_volume_24h + usdt_amount
        apt_volume_24h := pool_entry.apt_volume_24h + apt_amount
        usdt_fee_24h := pool_entry.usdt_fee_24h + usdt_fee
        usdt_sell_volume_24h := pool_entry.usdt_sell_volume_24h + usdt_amount
        apt_buy_volume_24h := pool_entry.apt_buy_volume_24h + apt_amount }
    else pool_entry
  fun k => if k == swap_data.pool_id then some updated else pool_volumes k

end Hyperion

/-! SushiSwap and LiquidSwap direction resolution, from
`processors/events/sushiswap/processor.rs` and
`processors/events/liquidswap/processor.rs` of the
`aptos-indexer-processor-example` crate.  Only the pair handlers that
resolve the x/y direction are modelled; they receive the four already
parsed amounts exactly as in the source. -/

namespace Sushiswap

/-- Model of `SushiPoolVolume` with its zeroing `Default`. -/
structure SushiPoolVolume where
  pair : String := ""
  apt_volume_24h : ℚ := 0
  usdt_volume_24h : ℚ := 0
  usdc_volume_24h : ℚ := 0
  weth_volume_24h : ℚ := 0
  apt_buy_volume_24h : ℚ := 0
  apt_sell_volume_24h : ℚ := 0
  usdt_buy_volume_24h : ℚ := 0
  usdt_sell_volume_24h : ℚ := 0
  usdc_buy_volume_24h : ℚ := 0
  usdc_sell_volume_24h : ℚ := 0
  weth_buy_volume_24h : ℚ := 0
  weth_sell_volume_24h : ℚ := 0

/-- Model of `SushiSwapProcessor::process_apt_izusdt_sushiswap` (token X
is APT, token Y is izUSDT): the first branch whose in/out pattern is
positive decides the direction; if neither matches, nothing changes. -/
def process_apt_izusdt_sushiswap (pool_entry : SushiPoolVolume)
    (amount_x_in amount_x_out amount_y_in amount_y_out : ℚ) : SushiPoolVolume :=
  if amount_x_in > 0 ∧ amount_y_out > 0 then
    let apt_amount := amount_x_in / (10 : ℚ) ^ APT_DECIMALS
    let izusdt_amount := amount_y_out / (10 : ℚ) ^ USDT_DECIMALS
    { pool_entry with
      apt_volume_24h := pool_entry.apt_volume_24h + apt_amount
      usdt_volume_24h := pool_entry.usdt_volume_24h + izusdt_amount
      apt_sell_volume_24h := pool_entry.apt_sell_volume_24h + apt_amount
      usdt_buy_volume_24h := pool_entry.usdt_buy_volume_24h + izusdt_amount }
  else if amount_y_in > 0 ∧ amount_x_out > 0 then
    let izusdt_amount := amount_y_in / (10 : ℚ) ^ USDT_DECIMALS
    let apt_amount := amount_x_out / (10 : ℚ) ^ APT_DECIMALS
    { pool_entry with
      usdt_volume_24h := pool_entry.usdt_volume_24h + izusdt_amount
      apt_volume_24h := pool_entry.apt_volume_24h + apt_amount
      usdt_sell_volume_24h := pool_entry.usdt_sell_volume_24h + izusdt_amount
      apt_buy_volume_24h := pool_entry.apt_buy_volume_24h + apt_amount }
  else pool_entry

end Sushiswap

namespace Liquidswap

/-- Model of `LiquidPoolVolume` with its zeroing `Default`. -/
structure LiquidPoolVolume where
  pair : String := ""
  apt_volume_24h : ℚ := 0
  usdc_volume_24h : ℚ := 0
  usdt_volume_24h : ℚ := 0
  weth_volume_24h : ℚ := 0

/-- Model of `LiquidSwapProcessor::process_apt_izusdc_liquidswap` (token
X is APT, token Y is izUSDC): same first-matching-branch direction
resolution as SushiSwap. -/
def process_apt_izusdc_liquidswap (pool_entry : LiquidPoolVolume)
    (x_in x_out y_in y_out : ℚ) : LiquidPoolVolume :=
  if x_in > 0 ∧ y_out > 0 then
    let apt_volume := x_in / (10 : ℚ) ^ APT_DECIMALS
    let usdc_volume := y_out / (10 : ℚ) ^ USDC_DECIMALS
    { pool_entry with
      apt_volume_24h := pool_entry.apt_volume_24h + apt_volume
      usdc_volume_24h := pool_entry.usdc_volume_24h + usdc_volume }
  else if y_in > 0 ∧ x_out > 0 then
    let usdc_volume := y_in / (10 : ℚ) ^ USDC_DECIMALS
    let apt_volume := x_out / (10 : ℚ) ^ APT_DECIMALS
    { pool_entry with
      apt_volume_24h := pool_entry.apt_volume_24h + apt_volume
      usdc_volume_24h := pool_entry.usdc_volume_24h + usdc_volume }
  else pool_entry

end Liquidswap

/-! Aggregate writer and rolling-window manager, from
`processors/tasmil_processor.rs` of the `aptos-indexer-processor` crate.
The `apt_data` table is keyed by the unique `protocol_name`; the upsert
path accesses it only through that key, so it is modelled as
`String → Option AptData`.  The cleanup path scans whole tables, so
there the tables are lists of rows. -/

/-- Model of the persisted `AptData` row (main crate: `protocol_name`,
`inserted_at`, and the eight nullable volume/fee columns referenced by
`tasmil_processor.rs`). -/
structure AptData where
  protocol_name : String
  inserted_at : ℤ
  apt_volume_24h : Option ℚ
  usdc_volume_24h : Option ℚ
  usdt_volume_24h : Option ℚ
  weth_volume_24h : Option ℚ
  apt_fee_24h : Option ℚ
  usdc_fee_24h : Option ℚ
  usdt_fee_24h : Option ℚ
  weth_fee_24h : Option ℚ

/-- Model of the insertable `NewAptData` record produced by the volume
calculator for one protocol. -/
structure NewAptData where
  protocol_name : String
  apt_volume_24h : Option ℚ
  usdc_volume_24h : Option ℚ
  usdt_volume_24h : Option ℚ
  weth_volume_24h : Option ℚ
  apt_fee_24h : Option ℚ
  usdc_fee_24h : Option ℚ
  usdt_fee_24h : Option ℚ
  weth_fee_24h : Option ℚ

/-- The `apt_data` table viewed through its unique key. -/
def AptDataTable : Type := String → Option AptData

/-- The eight current values read by
`TasmilProcessor::get_current_volumes`, with every `None` column and the
missing-row case defaulting to zero. -/
structure CurrentVolumes where
  apt_volume : ℚ
  usdc_volume : ℚ
  usdt_volume : ℚ
  weth_volume : ℚ
  apt_fee : ℚ
  usdc_fee : ℚ
  usdt_fee : ℚ
  weth_fee : ℚ

/-- Model of `TasmilProcessor::get_current_volumes`. -/
def get_current_volumes (db : AptDataTable) (protocol_name : String) : CurrentVolumes :=
  match db protocol_name with
  | some data =>
    ⟨data.apt_volume_24h.getD 0, data.usdc_volume_24h.getD 0,
      data.usdt_volume_24h.getD 0, data.weth_volume_24h.getD 0,
      data.apt_fee_24h.getD 0, data.usdc_fee_24h.getD 0,
      data.usdt_fee_24h.getD 0, data.weth_fee_24h.getD 0⟩
  | none => ⟨0, 0, 0, 0, 0, 0, 0, 0⟩

/-- Write-through of one keyed upsert statement: the row for the key is
inserted or replaced, all other rows are untouched. -/
def upsertRow (db : AptDataTable) (name : String) (row : AptData) : AptDataTable :=
  fun k => if k == name then some row else db k

/-- Model of one iteration of the loop in
`TasmilProcessor::upsert_pool_volumes`: read the current values, add the
batch columns (`unwrap_or(&zero)`), and upsert the sums with
`inserted_at = now`. -/
def upsert_record (now : ℤ) (db : AptDataTable) (record : NewAptData) : AptDataTable :=
  let cur := get_current_volumes db record.protocol_name
  upsertRow db record.protocol_name
    { protocol_name := record.protocol_name
      inserted_at := now
      apt_volume_24h := some (cur.apt_volume + record.apt_volume_24h.getD 0)
      usdc_volume_24h := some (cur.usdc_volume + record.usdc_volume_24h.getD 0)
      usdt_volume_24h := some (cur.usdt_volume + record.usdt_volume_24h.getD 0)
      weth_volume_24h := some (cur.weth_volume + record.weth_volume_24h.getD 0)
      apt_fee_24h := some (cur.apt_fee + record.apt_fee_24h.getD 0)
      usdc_fee_24h := some (cur.usdc_fee + record.usdc_fee_24h.getD 0)
      usdt_fee_24h := some (cur.usdt_fee + record.usdt_fee_24h.getD 0)
      weth_fee_24h := some (cur.weth_fee + record.weth_fee_24h.getD 0) }

/-- The concrete dapps aggregated into the synthetic `aptos` row, in the
order listed in `upsert_aptos_aggregated_data`. -/
def dapp_names : List String := ["sushiswap", "cellana", "thala", "liquidswap", "hyperion"]

/-- The rows loaded by the `eq_any(dapp_names)` query: one row per
concrete protocol that exists in the table. -/
def loadDappData (db : AptDataTable) : List AptData :=
  dapp_names.filterMap db

/-- Column totals accumulated over the loaded dapp rows, each `None`
column counting as zero (`unwrap_or(&zero_decimal)`). -/
def aggregatedTotals (dapp_data : List AptData) : CurrentVolumes :=
  ⟨(dapp_data.map (fun r => r.apt_volume_24h.getD 0)).sum,
    (dapp_data.map (fun r => r.usdc_volume_24h.getD 0)).sum,
    (dapp_data.map (fun r => r.usdt_volume_24h.getD 0)).sum,
    (dapp_data.map (fun r => r.weth_volume_24h.getD 0)).sum,
    (dapp_data.map (fun r => r.apt_fee_24h.getD 0)).sum,
    (dapp_data.map (fun r => r.usdc_fee_24h.getD 0)).sum,
    (dapp_data.map (fun r => r.usdt_fee_24h.getD 0)).sum,
    (dapp_data.map (fun r => r.weth_fee_24h.getD 0)).sum⟩

/-- Model of `TasmilProcessor::upsert_aptos_aggregated_data`: load the
five concrete rows, return unchanged when none exists, otherwise upsert a
`protocol_name = "aptos"` row whose columns are the column sums. -/
def upsert_aptos_aggregated_data (now : ℤ) (db : AptDataTable) : AptDataTable :=
  let dapp_data := loadDappData db
  if dapp_data.isEmpty then db
  else
    let tot := aggregatedTotals dapp_data
    upsertRow db "aptos"
      { protocol_name := "aptos"
        inserted_at := now
        apt_volume_24h := some tot.apt_volume
        usdc_volume_24h := some tot.usdc_volume
        usdt_volume_24h := some tot.usdt_volume
        weth_volume_24h := some tot.weth_volume
        apt_fee_24h := some tot.apt_fee
        usdc_fee_24h := some tot.usdc_fee
        usdt_fee_24h := some tot.usdt_fee
        weth_fee_24h := some tot.weth_fee }

/-- Model of `TasmilProcessor::upsert_pool_volumes`: an empty batch
returns early; otherwise every record is upserted in order and only then
is the aggregated `aptos` row recomputed. -/
def upsert_pool_volumes (now : ℤ) (db : AptDataTable) (volume_data : List NewAptData) :
    AptDataTable :=
  if volume_data.isEmpty then db
  else upsert_aptos_aggregated_data now (volume_data.foldl (upsert_record now) db)

/-- Model of the persisted `CoinVolume24h` row. -/
structure CoinVolume24h where
  coin : String
  buy_volume : Option ℚ
  sell_volume : Option ℚ
  inserted_at : ℤ

/-- Model of the persisted `CoinVolumeBucket` row. `bucket_start` and
`bucket_end` hold GMT+7 wall-clock seconds (the raw `NaiveDateTime`
payload), `inserted_at` holds UTC seconds; the cleanup code compares
these raw values directly. -/
structure CoinVolumeBucket where
  coin : String
  bucket_start : ℤ
  bucket_end : ℤ
  volume : Option ℚ
  inserted_at : ℤ

/-- Starts of the bucket rows of one coin, newest first — the
`order_by(bucket_start.desc())` load in `cleanup_old_buckets`. -/
def sortedStartsDesc (coinBuckets : List CoinVolumeBucket) : List ℤ :=
  (coinBuckets.map (·.bucket_start)).mergeSort (fun a b => decide (b ≤ a))

/-- The `bucket_start` of the oldest bucket kept for a coin with more
than twelve rows: last element of the first twelve in descending order
(`buckets_to_keep.last()`). -/
def oldest_bucket_to_keep (coinBuckets : List CoinVolumeBucket) : Option ℤ :=
  ((sortedStartsDesc coinBuckets).take 12).getLast?

/-- Whether a row survives the per-coin twelve-bucket cap: rows of coins
with at most twelve buckets always survive; otherwise exactly the rows
whose `bucket_start` is not below the twelfth-newest start survive
(`delete ... filter(bucket_start.lt(oldest_bucket_to_keep))`). -/
def bucketSurvivesCap (table : List CoinVolumeBucket) (b : CoinVolumeBucket) : Bool :=
  let coinBuckets := table.filter (fun r => r.coin == b.coin)
  if coinBuckets.length > 12 then
    match oldest_bucket_to_keep coinBuckets with
    | some oldest => ! decide (b.bucket_start < oldest)
    | none => true
  else true

/-- The bucket table after the first delete statement of
`cleanup_old_buckets`: exactly the rows with `bucket_end < cutoff` are
gone. -/
def after_evict (cutoff_time : ℤ) (buckets : List CoinVolumeBucket) :
    List CoinVolumeBucket :=
  buckets.filter (fun b => ! decide (b.bucket_end < cutoff_time))

/-- Model of `TasmilProcessor::cleanup_old_buckets`: first delete every
row with `bucket_end < cutoff`, then for each coin keep only the twelve
newest rows by `bucket_start`. -/
def cleanup_old_buckets (cutoff_time : ℤ) (buckets : List CoinVolumeBucket) :
    List CoinVolumeBucket :=
  (after_evict cutoff_time buckets).filter
    (bucketSurvivesCap (after_evict cutoff_time buckets))

/-- The three persisted tables the rolling-window manager touches. -/
structure DbState where
  apt_data : List AptData
  coin_volume_24h : List CoinVolume24h
  coin_volume_buckets : List CoinVolumeBucket

/-- Counter reset applied to every `apt_data` row on staleness: all eight
columns to `some 0`, `inserted_at` stamped to now. -/
def zeroAptCounters (now : ℤ) (r : AptData) : AptData :=
  { r with
    apt_volume_24h := some 0, usdc_volume_24h := some 0
    usdt_volume_24h := some 0, weth_volume_24h := some 0
    apt_fee_24h := some 0, usdc_fee_24h := some 0
    usdt_fee_24h := some 0, weth_fee_24h := some 0
    inserted_at := now }

/-- Counter reset applied to every `coin_volume_24h` row on staleness. -/
def zeroCoinCounters (now : ℤ) (r : CoinVolume24h) : CoinVolume24h :=
  { r with buy_volume := some 0, sell_volume := some 0, inserted_at := now }

/-- Model of `TasmilProcessor::cleanup_old_data`: evict/cap buckets
first, return early when `apt_data` is empty, then reset every counter of
all three tables when the newest `inserted_at` is older than
`now - 24h`, and do nothing more otherwise.  The `None` arm mirrors the
source's unreachable `else` block (lines 447-477), which resets coin
volumes and deletes buckets. -/
def cleanup_old_data (now : ℤ) (s : DbState) : DbState :=
  let cutoff_time := now - 24 * 3600
  let s1 : DbState :=
    { s with coin_volume_buckets := cleanup_old_buckets cutoff_time s.coin_volume_buckets }
  if s1.apt_data.isEmpty then s1
  else
    match (s1.apt_data.map (·.inserted_at)).max? with
    | some latest =>
      if latest < cutoff_time then
        { apt_data := s1.apt_data.map (zeroAptCounters now)
          coin_volume_24h := s1.coin_volume_24h.map (zeroCoinCounters now)
          coin_volume_buckets := [] }
      else s1
    | none =>
      { s1 with
        coin_volume_24h := s1.coin_volume_24h.map (zeroCoinCounters now)
        coin_volume_buckets := [] }

/-- A transaction as seen by the timestamp handling of
`VolumeCalculator::process`: only the optional protobuf timestamp
matters here. -/
structure TransactionM where
  timestamp : Option ℤ

/-- Model of the per-transaction skeleton of `VolumeCalculator::process`
(lines 112-118): `txn.timestamp.as_ref().unwrap()` panics — modelled as
`Except.error` — when the timestamp is absent; otherwise transactions
outside the 24-hour window are skipped and the rest are retained for
event processing. -/
def process_transactions_timestamps (now : ℤ) :
    List TransactionM → Except Unit (List TransactionM)
  | [] => .ok []
  | txn :: rest =>
    match txn.timestamp with
    | none => .error ()
    | some ts =>
      match process_transactions_timestamps now rest with
      | .error e => .error e
      | .ok kept => .ok (if is_within_24h now ts then txn :: kept else kept)

/-- The `aptos` row written by `upsert_aptos_aggregated_data`: every
column is the corresponding aggregated total, `inserted_at` is now. -/
def aptosRowOf (now : ℤ) (tot : CurrentVolumes) : AptData :=
  ⟨"aptos", now, some tot.apt_volume, some tot.usdc_volume, some tot.usdt_volume,
    some tot.weth_volume, some tot.apt_fee, some tot.usdc_fee, some tot.usdt_fee,
    some tot.weth_fee⟩

/-- Concrete one-record batch delta used to exercise the writer: 3 APT of
volume for cellana. -/
def c1WitnessRecord : NewAptData :=
  ⟨"cellana", some 3, none, none, none, none, none, none, none⟩

/-- Concrete `apt_data` row used to exercise the staleness reset: one
`cellana` row stamped at time 0 with an APT volume of 5. -/
def c3WitnessRow : AptData :=
  ⟨"cellana", 0, some 5, none, none, none, none, none, none, none⟩

/-- Concrete database state holding only `c3WitnessRow`. -/
def c3WitnessState : DbState := ⟨[c3WitnessRow], [], []⟩

/-- Concrete bucket row for the cap witness: APT bucket number `k`. -/
def c4WitnessBucket (k : ℤ) : CoinVolumeBucket :=
  ⟨"APT", k * 7200, k * 7200 + 7200, none, 0⟩

/-- Concrete bucket table with thirteen APT rows, one more than the cap. -/
def c4WitnessTable : List CoinVolumeBucket :=
  (List.range 13).map (fun k => c4WitnessBucket k)

/-! Theorems. -/

/-- The token identifiers the registry maps to APT (divisor branch 1 of
`normalize_token_amount`). -/
def aptTokenTypes : List String :=
  [Cellana.APT_COIN_TYPE, Thala.APT_COIN_TYPE, Hyperion.APT_COIN_TYPE,
    Liquidswap.APT_COIN_TYPE, Sushiswap.APT_COIN_TYPE]

/-- The token identifiers of the USDC divisor branch. -/
def usdcTokenTypes : List String :=
  [Cellana.USDC_COIN_TYPE, Thala.USDC_COIN_TYPE, Hyperion.USDC_COIN_TYPE,
    Sushiswap.IZUSDC_COIN_TYPE, Sushiswap.WHUSDC_COIN_TYPE,
    Liquidswap.IZUSDC_COIN_TYPE, Liquidswap.WHUSDC_COIN_TYPE]

/-- The token identifiers of the USDT divisor branch. -/
def usdtTokenTypes : List String :=
  [Cellana.USDT_COIN_TYPE, Thala.USDT_COIN_TYPE, Hyperion.USDT_COIN_TYPE,
    Sushiswap.IZUSDT_COIN_TYPE, Liquidswap.IZUSDT_COIN_TYPE,
    Liquidswap.WHUSDT_COIN_TYPE]

/-- The token identifiers of the WETH divisor branch. -/
def wethTokenTypes : List String :=
  [Sushiswap.IZWETH_COIN_TYPE, Liquidswap.IZWETH_COIN_TYPE,
    Liquidswap.WHWETH_COIN_TYPE]

lemma normalize_of_apt {ts : String} (h : isAptTokenCond ts = true) (x : ℚ) :
    normalize_token_amount ts x = x / 10 ^ (8 : ℕ) := by
  simp [normalize_token_amount, h]

lemma normalize_of_usdc {ts : String} (h0 : isAptTokenCond ts = false)
    (h : isUsdcTokenCond ts = true) (x : ℚ) :
    normalize_token_amount ts x = x / 10 ^ (6 : ℕ) := by
  simp [normalize_token_amount, h0, h]

lemma normalize_of_usdt {ts : String} (h0 : isAptTokenCond ts = false)
    (h1 : isUsdcTokenCond ts = false) (h : isUsdtTokenCond ts = true) (x : ℚ) :
    normalize_token_amount ts x = x / 10 ^ (6 : ℕ) := by
  simp [normalize_token_amount, h0, h1, h]

lemma normalize_of_weth {ts : String} (h0 : isAptTokenCond ts = false)
    (h1 : isUsdcTokenCond ts = false) (h2 : isUsdtTokenCond ts = false)
    (h : isWethTokenCond ts = true) (x : ℚ) :
    normalize_token_amount ts x = x / 10 ^ (6 : ℕ) := by
  simp [normalize_token_amount, h0, h1, h2, h]

lemma div_pow_ten_mul_cancel (x : ℚ) (n : ℕ) : x / 10 ^ n * 10 ^ n = x :=
  div_mul_cancel₀ x (pow_ne_zero n (by norm_num))

/-- Claim C6: for every raw integer amount and every canonical coin the
normalizer divides by the coin's fixed power of ten exactly, with APT at
8 decimals and USDC, USDT, WETH at 6, so multiplying the normalized value
back by that power recovers the raw amount. -/
theorem c6_normalizer_exact_roundtrip (raw : ℤ) (ts : String) :
    (ts ∈ aptTokenTypes →
      normalize_token_amount ts (raw : ℚ) * 10 ^ (8 : ℕ) = (raw : ℚ)) ∧
    (ts ∈ usdcTokenTypes →
      normalize_token_amount ts (raw : ℚ) * 10 ^ (6 : ℕ) = (raw : ℚ)) ∧
    (ts ∈ usdtTokenTypes →
      normalize_token_amount ts (raw : ℚ) * 10 ^ (6 : ℕ) = (raw : ℚ)) ∧
    (ts ∈ wethTokenTypes →
      normalize_token_amount ts (raw : ℚ) * 10 ^ (6 : ℕ) = (raw : ℚ)) := by
  refine ⟨fun h => ?_, fun h => ?_, fun h => ?_, fun h => ?_⟩
  · simp only [aptTokenTypes, List.mem_cons, List.mem_singleton, List.not_mem_nil, or_false] at h
    rcases h with h | h | h | h | h <;> subst h <;>
      rw [normalize_of_apt (by decide)] <;> exact div_pow_ten_mul_cancel _ _
  · simp only [usdcTokenTypes, List.mem_cons, List.mem_singleton, List.not_mem_nil, or_false] at h
    rcases h with h | h | h | h | h | h | h <;> subst h <;>
      rw [normalize_of_usdc (by decide) (by decide)] <;> exact div_pow_ten_mul_cancel _ _
  · simp only [usdtTokenTypes, List.mem_cons, List.mem_singleton, List.not_mem_nil, or_false] at h
    rcases h with h | h | h | h | h | h <;> subst h <;>
      rw [normalize_of_usdt (by decide) (by decide) (by decide)] <;>
      exact div_pow_ten_mul_cancel _ _
  · simp only [wethTokenTypes, List.mem_cons, List.mem_singleton, List.not_mem_nil, or_false] at h
    rcases h with h | h | h <;> subst h <;>
      rw [normalize_of_weth (by decide) (by decide) (by decide) (by decide)] <;>
      exact div_pow_ten_mul_cancel _ _

/-- Witness for C6: one representative token of each coin group at raw
amount 123456789. -/
theorem c6_normalizer_exact_roundtrip_witness :
    Cellana.APT_COIN_TYPE ∈ aptTokenTypes ∧
    Sushiswap.IZUSDC_COIN_TYPE ∈ usdcTokenTypes ∧
    Liquidswap.WHUSDT_COIN_TYPE ∈ usdtTokenTypes ∧
    Liquidswap.WHWETH_COIN_TYPE ∈ wethTokenTypes ∧
    normalize_token_amount Cellana.APT_COIN_TYPE ((123456789 : ℤ) : ℚ) * 10 ^ (8 : ℕ) =
      ((123456789 : ℤ) : ℚ) ∧
    normalize_token_amount Sushiswap.IZUSDC_COIN_TYPE ((123456789 : ℤ) : ℚ) *
      10 ^ (6 : ℕ) = ((123456789 : ℤ) : ℚ) ∧
    normalize_token_amount Liquidswap.WHUSDT_COIN_TYPE ((123456789 : ℤ) : ℚ) *
      10 ^ (6 : ℕ) = ((123456789 : ℤ) : ℚ) ∧
    normalize_token_amount Liquidswap.WHWETH_COIN_TYPE ((123456789 : ℤ) : ℚ) *
      10 ^ (6 : ℕ) = ((123456789 : ℤ) : ℚ) :=
  ⟨by decide, by decide, by decide, by decide,
    (c6_normalizer_exact_roundtrip 123456789 Cellana.APT_COIN_TYPE).1 (by decide),
    (c6_normalizer_exact_roundtrip 123456789 Sushiswap.IZUSDC_COIN_TYPE).2.1 (by decide),
    (c6_normalizer_exact_roundtrip 123456789 Liquidswap.WHUSDT_COIN_TYPE).2.2.1 (by decide),
    (c6_normalizer_exact_roundtrip 123456789 Liquidswap.WHWETH_COIN_TYPE).2.2.2 (by decide)⟩

lemma fromTimestampOrEpoch_of_inRange {t : ℤ} (h1 : chronoMinTs ≤ t) (h2 : t ≤ chronoMaxTs) :
    fromTimestampOrEpoch t = t := by
  unfold fromTimestampOrEpoch
  exact if_pos ⟨h1, h2⟩

/-- Both components of the bucket are two hours apart, for every input
(the next-day branch of the source fires exactly when the start hour is
22, and midnight of the next day is that start plus two hours). -/
lemma calculate_bucket_range_end_eq (t : ℤ) :
    (calculate_bucket_range t).2 = (calculate_bucket_range t).1 + 7200 := by
  unfold calculate_bucket_range gmt7OffsetSecs
  dsimp only
  generalize fromTimestampOrEpoch t + 7 * 3600 = L
  split <;> omega

/-- For in-range timestamps the bucket start is the enclosing 2-hour
boundary of the GMT+7 wall clock. -/
lemma calculate_bucket_range_start_closed {t : ℤ} (h1 : chronoMinTs ≤ t)
    (h2 : t ≤ chronoMaxTs) :
    (calculate_bucket_range t).1 = (t + gmt7OffsetSecs) / 7200 * 7200 := by
  unfold calculate_bucket_range
  dsimp only
  rw [fromTimestampOrEpoch_of_inRange h1 h2]
  unfold gmt7OffsetSecs
  generalize t + 7 * 3600 = L
  omega

/-- Counterexample to C5 as stated: at the Unix-seconds timestamp
`i64::MAX` (which chrono cannot represent, so the source falls back to
the epoch) the returned interval does not contain the timestamp's GMT+7
wall-clock instant. -/
theorem c5_counterexample_out_of_range :
    ¬ ((calculate_bucket_range 9223372036854775807).1 ≤
        9223372036854775807 + gmt7OffsetSecs ∧
       9223372036854775807 + gmt7OffsetSecs <
        (calculate_bucket_range 9223372036854775807).2) := by
  decide

/-- Claim C5 (amended): for every Unix-seconds timestamp within chrono's
representable range (leaving two hours of headroom at the top so that the
boundary instant is also representable), the bucket is a half-open
two-hour interval of GMT+7 wall-clock time that contains the timestamp,
its start is aligned to an even local hour at minute zero, and the
instant one second before `bucket_end` still maps to the same bucket;
outside that range the source clamps to the epoch bucket instead. -/
theorem c5_bucket_range_contains (t : ℤ) (h1 : chronoMinTs ≤ t)
    (h2 : t + 7200 ≤ chronoMaxTs) :
    (calculate_bucket_range t).1 ≤ t + gmt7OffsetSecs ∧
    t + gmt7OffsetSecs < (calculate_bucket_range t).2 ∧
    (calculate_bucket_range t).2 = (calculate_bucket_range t).1 + 7200 ∧
    (calculate_bucket_range t).1 % 7200 = 0 ∧
    calculate_bucket_range ((calculate_bucket_range t).2 - 1 - gmt7OffsetSecs) =
      calculate_bucket_range t := by
  have h2' : t ≤ chronoMaxTs := by omega
  have hend := calculate_bucket_range_end_eq t
  have hstart := calculate_bucket_range_start_closed h1 h2'
  have hL : (calculate_bucket_range t).1 ≤ t + gmt7OffsetSecs ∧
      t + gmt7OffsetSecs < (calculate_bucket_range t).1 + 7200 := by
    rw [hstart]
    unfold gmt7OffsetSecs
    constructor <;> omega
  have halign : (calculate_bucket_range t).1 % 7200 = 0 := by
    rw [hstart]
    omega
  refine ⟨hL.1, by omega, hend, halign, ?_⟩
  have harg1 : chronoMinTs ≤ (calculate_bucket_range t).2 - 1 - gmt7OffsetSecs := by
    unfold gmt7OffsetSecs at *
    omega
  have harg2 : (calculate_bucket_range t).2 - 1 - gmt7OffsetSecs ≤ chronoMaxTs := by
    unfold gmt7OffsetSecs at *
    omega
  have hstart' := calculate_bucket_range_start_closed harg1 harg2
  have hend' := calculate_bucket_range_end_eq
    ((calculate_bucket_range t).2 - 1 - gmt7OffsetSecs)
  have hfst : (calculate_bucket_range ((calculate_bucket_range t).2 - 1 - gmt7OffsetSecs)).1 =
      (calculate_bucket_range t).1 := by
    rw [hstart']
    unfold gmt7OffsetSecs at *
    omega
  have hsnd : (calculate_bucket_range ((calculate_bucket_range t).2 - 1 - gmt7OffsetSecs)).2 =
      (calculate_bucket_range t).2 := by
    rw [hend', hfst]
    omega
  exact Prod.ext hfst hsnd

/-- Witness for C5 (amended) at the timestamp 1750080174 used by the
source's own unit test (2025-06-16 20:22:54 GMT+7, bucket
20:00-22:00). -/
theorem c5_bucket_range_contains_witness :
    chronoMinTs ≤ 1750080174 ∧ (1750080174 : ℤ) + 7200 ≤ chronoMaxTs ∧
    ((calculate_bucket_range 1750080174).1 ≤ 1750080174 + gmt7OffsetSecs ∧
     1750080174 + gmt7OffsetSecs < (calculate_bucket_range 1750080174).2 ∧
     (calculate_bucket_range 1750080174).2 = (calculate_bucket_range 1750080174).1 + 7200 ∧
     (calculate_bucket_range 1750080174).1 % 7200 = 0 ∧
     calculate_bucket_range ((calculate_bucket_range 1750080174).2 - 1 - gmt7OffsetSecs) =
       calculate_bucket_range 1750080174) :=
  ⟨by decide, by decide, c5_bucket_range_contains 1750080174 (by decide) (by decide)⟩

/-- Counterexample to C7 as stated: a Hyperion USDT to USDC swap of raw
input 2000000 with raw protocol fee 1000 credits the input coin's
`usdt_volume_24h` with the gross 2, not with the fee-net
`(2000000 - 1000) / 10^6`; Hyperion does not subtract the fee from the
input-side volume. -/
theorem c7_counterexample_hyperion_gross_input :
    ((Hyperion.process_swap (fun _ => none)
        ⟨"2000000", "1000000", Hyperion.USDT_COIN_TYPE, Hyperion.USDC_COIN_TYPE,
          "p1", "1000"⟩) "p1").map (fun e => e.usdt_volume_24h) = some 2 ∧
    (2 : ℚ) ≠ (2000000 - 1000) / 10 ^ (6 : ℕ) := by
  have hin : parseBigDecimal "2000000" = some 2000000 := by decide
  have hout : parseBigDecimal "1000000" = some 1000000 := by decide
  have hfee : parseBigDecimal "1000" = some 1000 := by decide
  constructor
  · simp only [Hyperion.process_swap, hin, hout, hfee]
    norm_num [Hyperion.USDT_DECIMALS]
  · norm_num

/-- Claim C7 (amended): among the fee-charging extractors the input-side
accumulation is not uniform — Thala (like Cellana) adds the fee-net
amount to the input coin's total-volume column, while Hyperion adds the
gross normalized input and records the fee only in the fee column. -/
theorem c7_fee_accumulation_not_uniform (entryT : Thala.PoolVolume) (rin rout fee : ℚ)
    (pv : String → Option Hyperion.PoolVolume) (sd : Hyperion.SwapData)
    (hfrom : sd.from_token = Hyperion.USDT_COIN_TYPE)
    (hto : sd.to_token = Hyperion.USDC_COIN_TYPE)
    (hin : parseBigDecimal sd.amount_in = some rin)
    (hout : parseBigDecimal sd.amount_out = some rout)
    (hfee : parseBigDecimal sd.protocol_fee_amount = some fee)
    (hent : pv sd.pool_id = none) :
    (Thala.process_swap_pair entryT "APT" "USDC" rin rout fee
        ((10 : ℚ) ^ (8 : ℕ)) ((10 : ℚ) ^ (6 : ℕ))).apt_volume_24h =
      entryT.apt_volume_24h + (rin / (10 : ℚ) ^ (8 : ℕ) - fee / (10 : ℚ) ^ (8 : ℕ)) ∧
    ((Hyperion.process_swap pv sd) sd.pool_id).map (fun e => e.usdt_volume_24h) =
      some (rin / (10 : ℚ) ^ (6 : ℕ)) ∧
    ((Hyperion.process_swap pv sd) sd.pool_id).map (fun e => e.usdt_fee_24h) =
      some (fee / (10 : ℚ) ^ (6 : ℕ)) := by
  refine ⟨?_, ?_, ?_⟩
  · simp [Thala.process_swap_pair]
  · simp only [Hyperion.process_swap, hfrom, hto, hin, hout, hfee, hent]
    norm_num [Hyperion.USDT_COIN_TYPE, Hyperion.USDC_COIN_TYPE, Hyperion.USDT_DECIMALS]
  · simp only [Hyperion.process_swap, hfrom, hto, hin, hout, hfee, hent]
    norm_num [Hyperion.USDT_COIN_TYPE, Hyperion.USDC_COIN_TYPE, Hyperion.USDT_DECIMALS]

/-- Witness for C7 (amended) at the counterexample's concrete swap. -/
theorem c7_fee_accumulation_not_uniform_witness :
    ((Thala.process_swap_pair {} "APT" "USDC" 2000000 1000000 1000
        ((10 : ℚ) ^ (8 : ℕ)) ((10 : ℚ) ^ (6 : ℕ))).apt_volume_24h =
      Thala.PoolVolume.apt_volume_24h {} +
        ((2000000 : ℚ) / (10 : ℚ) ^ (8 : ℕ) - (1000 : ℚ) / (10 : ℚ) ^ (8 : ℕ))) ∧
    ((Hyperion.process_swap (fun _ => none)
        ⟨"2000000", "1000000", Hyperion.USDT_COIN_TYPE, Hyperion.USDC_COIN_TYPE,
          "p1", "1000"⟩) "p1").map (fun e => e.usdt_volume_24h) =
      some ((2000000 : ℚ) / (10 : ℚ) ^ (6 : ℕ)) ∧
    ((Hyperion.process_swap (fun _ => none)
        ⟨"2000000", "1000000", Hyperion.USDT_COIN_TYPE, Hyperion.USDC_COIN_TYPE,
          "p1", "1000"⟩) "p1").map (fun e => e.usdt_fee_24h) =
      some ((1000 : ℚ) / (10 : ℚ) ^ (6 : ℕ)) :=
  c7_fee_accumulation_not_uniform {} 2000000 1000000 1000 (fun _ => none)
    ⟨"2000000", "1000000", Hyperion.USDT_COIN_TYPE, Hyperion.USDC_COIN_TYPE, "p1", "1000"⟩
    rfl rfl (by decide) (by decide) (by decide) rfl

/-- Counterexample to C8 as stated: a SushiSwap APT/izUSDT event and a
LiquidSwap APT/izUSDC event in which both the x-side and y-side `_in`
amounts are non-zero are not treated as malformed — because the y-side
`_out` amount is also positive, the first direction branch fires and the
swap contributes volume. -/
theorem c8_counterexample_both_in_processed :
    (Sushiswap.process_apt_izusdt_sushiswap {} 100000000 0 2000000 2000000).apt_volume_24h = 1 ∧
    (Liquidswap.process_apt_izusdc_liquidswap {} 100000000 0 1000000 1000000).apt_volume_24h = 1 ∧
    (1 : ℚ) ≠ 0 := by
  refine ⟨?_, ?_, by norm_num⟩
  · norm_num [Sushiswap.process_apt_izusdt_sushiswap, Sushiswap.APT_DECIMALS,
      Sushiswap.USDT_DECIMALS]
  · norm_num [Liquidswap.process_apt_izusdc_liquidswap, Liquidswap.APT_DECIMALS,
      Liquidswap.USDC_DECIMALS]

/-- Claim C8 (amended): when both `_in` amounts of a SushiSwap or
LiquidSwap event are non-zero the event is not rejected; the first
matching in/out pattern decides the direction, so with a positive y-side
`_out` the event is processed as an x-to-y swap and contributes its
normalized amounts to the pool volumes. -/
theorem c8_both_in_first_branch_wins (e : Sushiswap.SushiPoolVolume)
    (l : Liquidswap.LiquidPoolVolume) (x_in x_out y_in y_out : ℚ)
    (hxin : 0 < x_in) (_hyin : 0 < y_in) (hyout : 0 < y_out) :
    (Sushiswap.process_apt_izusdt_sushiswap e x_in x_out y_in y_out).apt_volume_24h =
      e.apt_volume_24h + x_in / (10 : ℚ) ^ (8 : ℕ) ∧
    (Sushiswap.process_apt_izusdt_sushiswap e x_in x_out y_in y_out).usdt_volume_24h =
      e.usdt_volume_24h + y_out / (10 : ℚ) ^ (6 : ℕ) ∧
    (Liquidswap.process_apt_izusdc_liquidswap l x_in x_out y_in y_out).apt_volume_24h =
      l.apt_volume_24h + x_in / (10 : ℚ) ^ (8 : ℕ) ∧
    (Liquidswap.process_apt_izusdc_liquidswap l x_in x_out y_in y_out).usdc_volume_24h =
      l.usdc_volume_24h + y_out / (10 : ℚ) ^ (6 : ℕ) := by
  have hs : Sushiswap.process_apt_izusdt_sushiswap e x_in x_out y_in y_out =
      { e with
        apt_volume_24h := e.apt_volume_24h + x_in / (10 : ℚ) ^ Sushiswap.APT_DECIMALS
        usdt_volume_24h := e.usdt_volume_24h + y_out / (10 : ℚ) ^ Sushiswap.USDT_DECIMALS
        apt_sell_volume_24h :=
          e.apt_sell_volume_24h + x_in / (10 : ℚ) ^ Sushiswap.APT_DECIMALS
        usdt_buy_volume_24h :=
          e.usdt_buy_volume_24h + y_out / (10 : ℚ) ^ Sushiswap.USDT_DECIMALS } := by
    unfold Sushiswap.process_apt_izusdt_sushiswap
    rw [if_pos ⟨hxin, hyout⟩]
  have hl : Liquidswap.process_apt_izusdc_liquidswap l x_in x_out y_in y_out =
      { l with
        apt_volume_24h := l.apt_volume_24h + x_in / (10 : ℚ) ^ Liquidswap.APT_DECIMALS
        usdc_volume_24h := l.usdc_volume_24h + y_out / (10 : ℚ) ^ Liquidswap.USDC_DECIMALS } := by
    unfold Liquidswap.process_apt_izusdc_liquidswap
    rw [if_pos ⟨hxin, hyout⟩]
  rw [hs, hl]
  exact ⟨rfl, rfl, rfl, rfl⟩

/-- Witness for C8 (amended) at the counterexample's concrete amounts. -/
theorem c8_both_in_first_branch_wins_witness :
    (0 : ℚ) < 100000000 ∧ (0 : ℚ) < 2000000 ∧ (0 : ℚ) < 1000000 ∧
    ((Sushiswap.process_apt_izusdt_sushiswap {} 100000000 0 2000000 1000000).apt_volume_24h =
      Sushiswap.SushiPoolVolume.apt_volume_24h {} + (100000000 : ℚ) / (10 : ℚ) ^ (8 : ℕ) ∧
     (Sushiswap.process_apt_izusdt_sushiswap {} 100000000 0 2000000 1000000).usdt_volume_24h =
      Sushiswap.SushiPoolVolume.usdt_volume_24h {} + (1000000 : ℚ) / (10 : ℚ) ^ (6 : ℕ) ∧
     (Liquidswap.process_apt_izusdc_liquidswap {} 100000000 0 2000000 1000000).apt_volume_24h =
      Liquidswap.LiquidPoolVolume.apt_volume_24h {} + (100000000 : ℚ) / (10 : ℚ) ^ (8 : ℕ) ∧
     (Liquidswap.process_apt_izusdc_liquidswap {} 100000000 0 2000000 1000000).usdc_volume_24h =
      Liquidswap.LiquidPoolVolume.usdc_volume_24h {} + (1000000 : ℚ) / (10 : ℚ) ^ (6 : ℕ)) :=
  ⟨by norm_num, by norm_num, by norm_num,
    c8_both_in_first_branch_wins {} {} 100000000 0 2000000 1000000
      (by norm_num) (by norm_num) (by norm_num)⟩

/-- Counterexample to C9 as stated: a batch holding a timestampless
transaction followed by a fresh one does not drop the first and continue —
`txn.timestamp.as_ref().unwrap()` panics, so the whole batch fails and
the second transaction is never processed. -/
theorem c9_counterexample_missing_timestamp_panics :
    process_transactions_timestamps 0 [⟨none⟩, ⟨some 0⟩] = .error () ∧
    process_transactions_timestamps 0 [⟨none⟩, ⟨some 0⟩] ≠
      .ok [(⟨some 0⟩ : TransactionM)] := by
  refine ⟨rfl, ?_⟩
  intro h
  simp [process_transactions_timestamps] at h

/-- Claim C9 (amended): a transaction lacking a timestamp is not dropped;
it aborts processing of the whole batch (the source unwraps the optional
timestamp, which panics), so no transaction list is produced at all. -/
theorem c9_missing_timestamp_aborts_batch (now : ℤ) (txns : List TransactionM)
    (t : TransactionM) (hmem : t ∈ txns) (hnone : t.timestamp = none) :
    process_transactions_timestamps now txns = .error () := by
  induction txns with
  | nil => cases hmem
  | cons hd tl ih =>
    rcases List.mem_cons.mp hmem with h | h
    · subst h
      unfold process_transactions_timestamps
      rw [hnone]
    · unfold process_transactions_timestamps
      cases hts : hd.timestamp with
      | none => rfl
      | some ts => rw [ih h]

/-- Witness for C9 (amended) at the counterexample's concrete batch. -/
theorem c9_missing_timestamp_aborts_batch_witness :
    (⟨none⟩ : TransactionM) ∈ [(⟨none⟩ : TransactionM), ⟨some 0⟩] ∧
    TransactionM.timestamp ⟨none⟩ = none ∧
    process_transactions_timestamps 0 [⟨none⟩, ⟨some 0⟩] = .error () :=
  ⟨by simp, rfl,
    c9_missing_timestamp_aborts_batch 0 [⟨none⟩, ⟨some 0⟩] ⟨none⟩ (by simp) rfl⟩

/-- Claim C10: amount strings that fail to parse are replaced by zero and
the swap is still processed — the pool entry is created (or kept) with a
zero contribution rather than the event being rejected: shown for a
Cellana APT-to-USDC swap and a Thala APT-to-USDC swap whose amount (and,
for Thala, fee) strings are unparsable, starting from a table without the
pool. -/
theorem c10_unparsable_amounts_zero_contribution
    (pvC : String → Option Cellana.PoolVolume) (sdC : Cellana.SwapData)
    (pvT : String → Option Thala.PoolVolume) (sdT : Thala.SwapData)
    (hCfrom : sdC.from_token = Cellana.APT_COIN_TYPE)
    (hCto : sdC.to_token = Cellana.USDC_COIN_TYPE)
    (hCin : parseBigDecimal sdC.amount_in = none)
    (hCout : parseBigDecimal sdC.amount_out = none)
    (hCpv : pvC sdC.pool = none)
    (hTfrom : sdT.from_token = Thala.APT_COIN_TYPE)
    (hTto : sdT.to_token = Thala.USDC_COIN_TYPE)
    (hTin : parseBigDecimal sdT.amount_in = none)
    (hTout : parseBigDecimal sdT.amount_out = none)
    (hTfee : parseBigDecimal sdT.protocol_fee_amount = none)
    (hTpv : pvT sdT.pool = none) :
    (Cellana.process_swap pvC sdC) sdC.pool = some { pool := sdC.pool } ∧
    (Thala.process_swap pvT sdT) sdT.pool = some { pool := sdT.pool } := by
  constructor
  · simp only [Cellana.process_swap, Cellana.process_apt_usdc_swap, hCfrom, hCto, hCin,
      hCout, hCpv]
    norm_num [Cellana.APT_COIN_TYPE, Cellana.USDC_COIN_TYPE, Cellana.USDT_COIN_TYPE]
  · simp only [Thala.process_swap, Thala.process_thala_swap, Thala.process_swap_pair,
      hTfrom, hTto, hTin, hTout, hTfee, hTpv]
    norm_num [Thala.APT_COIN_TYPE, Thala.USDC_COIN_TYPE, Thala.USDT_COIN_TYPE]

/-- Witness for C10 at concrete unparsable amount strings. -/
theorem c10_unparsable_amounts_zero_contribution_witness :
    (Cellana.process_swap (fun _ => none)
        ⟨"not_a_number", "also_bad", Cellana.APT_COIN_TYPE, Cellana.USDC_COIN_TYPE,
          "pc", 30⟩) "pc" = some { pool := "pc" } ∧
    (Thala.process_swap (fun _ => none)
        ⟨"not_a_number", "also_bad", Thala.APT_COIN_TYPE, Thala.USDC_COIN_TYPE,
          "pt", "bad_fee"⟩) "pt" = some { pool := "pt" } :=
  c10_unparsable_amounts_zero_contribution (fun _ => none)
    ⟨"not_a_number", "also_bad", Cellana.APT_COIN_TYPE, Cellana.USDC_COIN_TYPE, "pc", 30⟩
    (fun _ => none)
    ⟨"not_a_number", "also_bad", Thala.APT_COIN_TYPE, Thala.USDC_COIN_TYPE, "pt", "bad_fee"⟩
    rfl rfl (by decide) (by decide) rfl rfl rfl (by decide) (by decide) (by decide) rfl

/-- Counterexample to C2 as stated: for a single Cellana APT-to-USDC swap
(raw input 100000000 APT at 30 bps, raw output 500000000 USDC) the
per-coin 24h delta produced by `calculate_24h_coin_volumes` for APT is
`buy_volume = sell_volume = 1` — two copies of the gross per-coin total
taken from the swap events — whereas the claim's derivation from the pool
buy/sell columns would put the fee-net `997/1000` into `sell_volume` and
leave the two columns independent. -/
theorem c2_counterexample_two_copies :
    calculate_24h_coin_volumes
      [⟨0, extract_coin_volumes_from_cellana
          ⟨"100000000", "500000000", Cellana.APT_COIN_TYPE, Cellana.USDC_COIN_TYPE,
            "p", 30⟩⟩] "APT" =
      some ⟨"APT", some 1, some 1⟩ ∧ (1 : ℚ) ≠ 997 / 1000 := by
  have hin : parseBigDecimal "100000000" = some 100000000 := by decide
  have hout : parseBigDecimal "500000000" = some 500000000 := by decide
  have htc1 : token_type_to_coin Cellana.APT_COIN_TYPE = some "APT" := by decide
  have htc2 : token_type_to_coin Cellana.USDC_COIN_TYPE = some "USDC" := by decide
  have hn1 : normalize_token_amount Cellana.APT_COIN_TYPE (100000000 : ℚ) = 1 := by
    rw [normalize_of_apt (by decide)]
    norm_num
  have hn2 : normalize_token_amount Cellana.USDC_COIN_TYPE (500000000 : ℚ) = 500 := by
    rw [normalize_of_usdc (by decide) (by decide)]
    norm_num
  have hex : extract_coin_volumes_from_cellana
      ⟨"100000000", "500000000", Cellana.APT_COIN_TYPE, Cellana.USDC_COIN_TYPE, "p", 30⟩ =
      [⟨"APT", 1⟩, ⟨"USDC", 500⟩] := by
    simp [extract_coin_volumes_from_cellana, hin, hout, htc1, htc2, hn1, hn2]
  rw [hex]
  have hb1 : (("APT" : String) == "APT") = true := by decide
  have hb2 : (("USDC" : String) == "APT") = false := by decide
  constructor
  · norm_num [calculate_24h_coin_volumes, coinVolumeTotal, hb1, hb2]
  · norm_num

/-- Claim C2 (amended): the per-coin 24h delta is computed directly from
the batch's swap events, not from the per-pool buy/sell columns, and for
every emitted record the `buy_volume` and `sell_volume` columns are two
copies of the same per-coin total of normalized event amounts. -/
theorem c2_coin_volume_buy_eq_sell (swap_events : List SwapEventData) (coin : String)
    (rec : NewCoinVolume24h)
    (h : calculate_24h_coin_volumes swap_events coin = some rec) :
    rec.buy_volume = rec.sell_volume ∧
    rec.buy_volume = some (coinVolumeTotal swap_events coin) ∧
    rec.coin = coin := by
  unfold calculate_24h_coin_volumes at h
  split at h
  · injection h with h
    subst h
    exact ⟨rfl, rfl, rfl⟩
  · cases h

/-- Witness for C2 (amended) at a one-event batch. -/
theorem c2_coin_volume_buy_eq_sell_witness :
    calculate_24h_coin_volumes [⟨0, [⟨"APT", 1⟩]⟩] "APT" =
      some ⟨"APT", some 1, some 1⟩ ∧
    ((NewCoinVolume24h.mk "APT" (some 1) (some 1)).buy_volume =
      (NewCoinVolume24h.mk "APT" (some 1) (some 1)).sell_volume ∧
     (NewCoinVolume24h.mk "APT" (some 1) (some 1)).buy_volume =
      some (coinVolumeTotal [⟨0, [⟨"APT", 1⟩]⟩] "APT") ∧
     (NewCoinVolume24h.mk "APT" (some 1) (some 1)).coin = "APT") :=
  ⟨by norm_num [calculate_24h_coin_volumes, coinVolumeTotal],
    c2_coin_volume_buy_eq_sell [⟨0, [⟨"APT", 1⟩]⟩] "APT" ⟨"APT", some 1, some 1⟩
      (by norm_num [calculate_24h_coin_volumes, coinVolumeTotal])⟩

/-- Claim C3: at the start of a batch over a non-empty `apt_data` table,
if the newest `inserted_at` is older than `now - 24h` then every counter
column of every `apt_data` row and of every `coin_volume_24h` row is
zeroed with `inserted_at` stamped to `now` and every bucket row is
deleted; when the newest `inserted_at` is not older than the cutoff, no
counter of either table is touched. -/
theorem c3_staleness_reset (now : ℤ) (s : DbState) (latest : ℤ)
    (hne : s.apt_data ≠ [])
    (hmax : (s.apt_data.map (·.inserted_at)).max? = some latest) :
    (latest < now - 24 * 3600 →
      (cleanup_old_data now s).apt_data = s.apt_data.map (zeroAptCounters now) ∧
      (cleanup_old_data now s).coin_volume_24h =
        s.coin_volume_24h.map (zeroCoinCounters now) ∧
      (cleanup_old_data now s).coin_volume_buckets = []) ∧
    (¬ latest < now - 24 * 3600 →
      (cleanup_old_data now s).apt_data = s.apt_data ∧
      (cleanup_old_data now s).coin_volume_24h = s.coin_volume_24h) := by
  obtain ⟨apt, coins, buckets⟩ := s
  simp only [ne_eq] at hne
  have hempty : apt.isEmpty = false := by
    cases apt with
    | nil => exact absurd rfl hne
    | cons a l => rfl
  simp only at hmax
  constructor
  · intro hstale
    simp only [cleanup_old_data, hempty, Bool.false_eq_true, if_false, hmax,
      if_pos hstale]
    exact ⟨trivial, trivial, trivial⟩
  · intro hfresh
    simp only [cleanup_old_data, hempty, Bool.false_eq_true, if_false, hmax,
      if_neg hfresh]
    exact ⟨trivial, trivial⟩

/-- Witness for C3: a one-row table last stamped at time 0 seen by a
batch at `now = 100000` is stale, and the reset fires. -/
theorem c3_staleness_reset_witness :
    c3WitnessState.apt_data ≠ [] ∧
    (c3WitnessState.apt_data.map (·.inserted_at)).max? = some 0 ∧
    ((0 : ℤ) < 100000 - 24 * 3600) ∧
    ((cleanup_old_data 100000 c3WitnessState).apt_data =
      c3WitnessState.apt_data.map (zeroAptCounters 100000) ∧
     (cleanup_old_data 100000 c3WitnessState).coin_volume_24h =
      c3WitnessState.coin_volume_24h.map (zeroCoinCounters 100000) ∧
     (cleanup_old_data 100000 c3WitnessState).coin_volume_buckets = []) :=
  ⟨by simp [c3WitnessState], by simp [c3WitnessState, c3WitnessRow, List.max?],
    by norm_num,
    (c3_staleness_reset 100000 c3WitnessState 0
      (by simp [c3WitnessState])
      (by simp [c3WitnessState, c3WitnessRow, List.max?])).1 (by norm_num)⟩

lemma upsert_record_isSome_self (now : ℤ) (db : AptDataTable) (r : NewAptData) :
    ((upsert_record now db r) r.protocol_name).isSome := by
  unfold upsert_record upsertRow
  simp

lemma upsert_record_isSome_mono (now : ℤ) (db : AptDataTable) (r : NewAptData)
    (n : String) (h : (db n).isSome) : ((upsert_record now db r) n).isSome := by
  unfold upsert_record upsertRow
  by_cases hc : (n == r.protocol_name) = true
  · simp [hc]
  · simp only [Bool.not_eq_true] at hc
    simp [hc, h]

lemma foldl_upsert_isSome_mono (now : ℤ) (records : List NewAptData) (db : AptDataTable)
    (n : String) (h : (db n).isSome) :
    ((records.foldl (upsert_record now) db) n).isSome := by
  induction records generalizing db with
  | nil => exact h
  | cons a l ih => exact ih _ (upsert_record_isSome_mono now db a n h)

lemma foldl_upsert_isSome_of_mem (now : ℤ) (records : List NewAptData) (db : AptDataTable)
    (r : NewAptData) (hr : r ∈ records) :
    ((records.foldl (upsert_record now) db) r.protocol_name).isSome := by
  induction records generalizing db with
  | nil => cases hr
  | cons a l ih =>
    rcases List.mem_cons.mp hr with h | h
    · subst h
      exact foldl_upsert_isSome_mono now l _ _ (upsert_record_isSome_self now db r)
    · exact ih _ h

lemma loadDappData_ne_nil (db : AptDataTable) (n : String) (hn : n ∈ dapp_names)
    (h : (db n).isSome) : loadDappData db ≠ [] := by
  intro hnil
  rw [loadDappData, List.filterMap_eq_nil_iff] at hnil
  rw [hnil n hn] at h
  cases h

lemma loadDappData_congr_away_from_aptos (db : AptDataTable) (row : AptData) :
    loadDappData (upsertRow db "aptos" row) = loadDappData db := by
  unfold loadDappData
  refine List.filterMap_congr ?_
  intro n hn
  unfold upsertRow
  have hne : (n == "aptos") = false := by
    simp only [dapp_names, List.mem_cons, List.not_mem_nil, or_false] at hn
    rcases hn with rfl | rfl | rfl | rfl | rfl <;> decide
  rw [hne]
  simp

/-- Claim C1: after the writer processes a non-empty batch delta whose
records all target concrete protocols, the persisted `aptos` row exists
and each of its eight volume and fee columns equals the sum of that
column over the persisted rows for the five concrete protocols in the
final table (a missing row contributing nothing, a NULL column counting
as zero), with the recomputation reading the table state left by all the
concrete-protocol upserts. -/
theorem c1_aptos_row_is_concrete_sum (now : ℤ) (db : AptDataTable)
    (volume_data : List NewAptData) (hne : volume_data ≠ [])
    (hnames : ∀ r ∈ volume_data, r.protocol_name ∈ dapp_names) :
    upsert_pool_volumes now db volume_data "aptos" =
      some (aptosRowOf now
        (aggregatedTotals (loadDappData (upsert_pool_volumes now db volume_data)))) := by
  have hempty : volume_data.isEmpty = false := by
    cases volume_data with
    | nil => exact absurd rfl hne
    | cons a l => rfl
  obtain ⟨r, hr⟩ := List.exists_mem_of_ne_nil volume_data hne
  have hsome := foldl_upsert_isSome_of_mem now volume_data db r hr
  have hdapp := loadDappData_ne_nil _ _ (hnames r hr) hsome
  have hdappE : (loadDappData (volume_data.foldl (upsert_record now) db)).isEmpty = false := by
    cases hcase : loadDappData (volume_data.foldl (upsert_record now) db) with
    | nil => exact absurd hcase hdapp
    | cons a l => rfl
  unfold upsert_pool_volumes
  rw [hempty]
  simp only [Bool.false_eq_true, if_false]
  unfold upsert_aptos_aggregated_data
  dsimp only
  rw [hdappE]
  simp only [Bool.false_eq_true, if_false]
  rw [loadDappData_congr_away_from_aptos]
  unfold upsertRow aptosRowOf
  simp

/-- Witness for C1: one cellana record applied to the empty table. -/
theorem c1_aptos_row_is_concrete_sum_witness :
    [c1WitnessRecord] ≠ [] ∧
    (∀ r ∈ [c1WitnessRecord], r.protocol_name ∈ dapp_names) ∧
    upsert_pool_volumes 7 (fun _ => none) [c1WitnessRecord] "aptos" =
      some (aptosRowOf 7
        (aggregatedTotals (loadDappData
          (upsert_pool_volumes 7 (fun _ => none) [c1WitnessRecord])))) :=
  ⟨by simp, by simp [c1WitnessRecord, dapp_names],
    c1_aptos_row_is_concrete_sum 7 (fun _ => none) [c1WitnessRecord] (by simp)
      (by simp [c1WitnessRecord, dapp_names])⟩

lemma getLast_le_of_pairwise_ge :
    ∀ (u : List ℤ), u.Pairwise (fun a b => b ≤ a) →
      ∀ (h : u ≠ []) (x : ℤ), x ∈ u → u.getLast h ≤ x := by
  intro u
  induction u with
  | nil => intro _ h; exact absurd rfl h
  | cons a l ih =>
    intro hp h x hx
    rcases List.pairwise_cons.mp hp with ⟨ha, hl⟩
    cases l with
    | nil =>
      simp only [List.mem_singleton] at hx
      subst hx
      simp [List.getLast]
    | cons b m =>
      rw [List.getLast_cons (by simp : (b :: m) ≠ [])]
      rcases List.mem_cons.mp hx with rfl | hx'
      · exact ha _ (List.getLast_mem _)
      · exact ih hl (by simp) x hx'

lemma not_decide_lt_int (a b : ℤ) : (! decide (a < b)) = decide (b ≤ a) := by
  by_cases h : a < b
  · simp [h, show ¬ b ≤ a by omega]
  · simp [h, show b ≤ a by omega]

/-- Spec of the twelfth-newest start of a duplicate-free list with more
than twelve elements: it exists and exactly twelve elements of the list
are at or above it. -/
lemma sorted_take12_spec (starts : List ℤ) (hnd : starts.Nodup)
    (hlen : 12 < starts.length) :
    ∃ thr, ((starts.mergeSort (fun a b => decide (b ≤ a))).take 12).getLast? = some thr ∧
      starts.countP (fun x => decide (thr ≤ x)) = 12 := by
  have hperm : (starts.mergeSort (fun a b => decide (b ≤ a))).Perm starts :=
    List.mergeSort_perm starts _
  have hlen' : 12 < (starts.mergeSort (fun a b => decide (b ≤ a))).length := by
    rw [hperm.length_eq]
    exact hlen
  have hpair0 := @List.sorted_mergeSort ℤ (fun a b : ℤ => decide (b ≤ a))
    (fun a b c hab hbc => by
      simp only [decide_eq_true_eq] at *
      omega)
    (fun a b => by
      simp only [Bool.or_eq_true, decide_eq_true_eq]
      omega)
    starts
  have hpair : (starts.mergeSort (fun a b => decide (b ≤ a))).Pairwise
      (fun a b => b ≤ a) :=
    hpair0.imp (fun h => by simpa using h)
  have hnds : (starts.mergeSort (fun a b => decide (b ≤ a))).Nodup :=
    (List.Perm.nodup_iff hperm).mpr hnd
  have hstrict : (starts.mergeSort (fun a b => decide (b ≤ a))).Pairwise
      (fun a b => b < a) :=
    (hpair.and hnds).imp (fun h => lt_of_le_of_ne h.1 (fun he => h.2 he.symm))
  have hu_len : ((starts.mergeSort (fun a b => decide (b ≤ a))).take 12).length = 12 := by
    rw [List.length_take]
    omega
  have hu_ne : (starts.mergeSort (fun a b => decide (b ≤ a))).take 12 ≠ [] := by
    intro h0
    rw [h0] at hu_len
    simp at hu_len
  refine ⟨((starts.mergeSort (fun a b => decide (b ≤ a))).take 12).getLast hu_ne,
    List.getLast?_eq_getLast _ hu_ne, ?_⟩
  have hsplit := List.take_append_drop 12 (starts.mergeSort (fun a b => decide (b ≤ a)))
  have hpair_uv : (((starts.mergeSort (fun a b => decide (b ≤ a))).take 12) ++
      ((starts.mergeSort (fun a b => decide (b ≤ a))).drop 12)).Pairwise
      (fun a b => b < a) := by
    rw [hsplit]
    exact hstrict
  rcases List.pairwise_append.mp hpair_uv with ⟨hu_pair, _, huv⟩
  obtain ⟨thr, hth⟩ : ∃ th,
      ((starts.mergeSort (fun a b => decide (b ≤ a))).take 12).getLast hu_ne = th :=
    ⟨_, rfl⟩
  rw [hth]
  have hthru : ∀ x ∈ (starts.mergeSort (fun a b => decide (b ≤ a))).take 12, thr ≤ x := by
    rw [← hth]
    exact fun x hx => getLast_le_of_pairwise_ge _ (hu_pair.imp le_of_lt) hu_ne x hx
  have hthrv : ∀ y ∈ (starts.mergeSort (fun a b => decide (b ≤ a))).drop 12, y < thr := by
    rw [← hth]
    exact fun y hy => huv _ (List.getLast_mem hu_ne) y hy
  have hcount_u : ((starts.mergeSort (fun a b => decide (b ≤ a))).take 12).countP
      (fun x => decide (thr ≤ x)) = 12 := by
    rw [List.countP_eq_length.mpr (fun a ha => decide_eq_true (hthru a ha))]
    exact hu_len
  have hcount_v : ((starts.mergeSort (fun a b => decide (b ≤ a))).drop 12).countP
      (fun x => decide (thr ≤ x)) = 0 :=
    List.countP_eq_zero.mpr
      (fun a ha h => absurd (of_decide_eq_true h) (not_le.mpr (hthrv a ha)))
  have hstep : starts.countP (fun x => decide (thr ≤ x)) =
      (starts.mergeSort (fun a b => decide (b ≤ a))).countP
        (fun x => decide (thr ≤ x)) :=
    (List.Perm.countP_eq _ hperm).symm
  rw [hstep, ← hsplit, List.countP_append, hcount_u, hcount_v]

/-- Claim C4: on every batch the bucket cleanup first deletes exactly the
rows whose `bucket_end` lies before the cutoff, and then, for each coin
still holding more than twelve rows, keeps exactly twelve — every row it
removes in the capping step is strictly older by `bucket_start` than
every row it keeps — while coins within the cap are left untouched.  The
hypothesis is the `(coin, bucket_start)` uniqueness of the table's
composite key. -/
theorem c4_bucket_eviction_and_cap (cutoff_time : ℤ) (t : List CoinVolumeBucket)
    (hkeys : ∀ c : String,
      ((t.filter (fun r => r.coin == c)).map (·.bucket_start)).Nodup) :
    (∀ b, b ∈ after_evict cutoff_time t ↔ b ∈ t ∧ ¬ b.bucket_end < cutoff_time) ∧
    ∀ c : String,
      (12 < ((after_evict cutoff_time t).filter (fun r => r.coin == c)).length →
        ((cleanup_old_buckets cutoff_time t).filter (fun r => r.coin == c)).length = 12 ∧
        ∀ kept ∈ (cleanup_old_buckets cutoff_time t).filter (fun r => r.coin == c),
          ∀ removed ∈ (after_evict cutoff_time t).filter (fun r => r.coin == c),
            removed ∉ cleanup_old_buckets cutoff_time t →
            removed.bucket_start < kept.bucket_start) ∧
      (((after_evict cutoff_time t).filter (fun r => r.coin == c)).length ≤ 12 →
        (cleanup_old_buckets cutoff_time t).filter (fun r => r.coin == c) =
          (after_evict cutoff_time t).filter (fun r => r.coin == c)) := by
  constructor
  · intro b
    unfold after_evict
    rw [List.mem_filter]
    simp
  · intro c
    set t1 := after_evict cutoff_time t with ht1
    set rows := t1.filter (fun r => r.coin == c) with hrows
    have hres : (cleanup_old_buckets cutoff_time t).filter (fun r => r.coin == c) =
        rows.filter (bucketSurvivesCap t1) := by
      unfold cleanup_old_buckets
      rw [← ht1, hrows, List.filter_filter, List.filter_filter]
      exact List.filter_congr (fun x _ => Bool.and_comm _ _)
    have hcoin_eq : ∀ b ∈ rows, b.coin = c := by
      intro b hb
      exact eq_of_beq (List.mem_filter.mp hb).2
    have hnd : (rows.map (·.bucket_start)).Nodup := by
      refine List.Nodup.sublist ?_ (hkeys c)
      exact List.Sublist.map _ (List.Sublist.filter _ (List.filter_sublist t))
    constructor
    · intro h12
      obtain ⟨thr, hthr, hcnt⟩ := sorted_take12_spec (rows.map (·.bucket_start)) hnd
        (by rw [List.length_map]; exact h12)
      have hold : oldest_bucket_to_keep rows = some thr := by
        unfold oldest_bucket_to_keep sortedStartsDesc
        exact hthr
      have hchar : ∀ b ∈ rows, bucketSurvivesCap t1 b = decide (thr ≤ b.bucket_start) := by
        intro b hb
        unfold bucketSurvivesCap
        rw [hcoin_eq b hb, ← hrows, if_pos h12, hold]
        exact not_decide_lt_int _ _
      have hresrows : (cleanup_old_buckets cutoff_time t).filter (fun r => r.coin == c) =
          rows.filter (fun b => decide (thr ≤ b.bucket_start)) := by
        rw [hres]
        exact List.filter_congr (fun x hx => hchar x hx)
      have hcnt' : rows.countP (fun b => decide (thr ≤ b.bucket_start)) = 12 := by
        have hmap := List.countP_map (fun x => decide (thr ≤ x))
          (fun b : CoinVolumeBucket => b.bucket_start) rows
        rw [hmap] at hcnt
        exact hcnt
      refine ⟨?_, ?_⟩
      · rw [hresrows, ← List.countP_eq_length_filter]
        exact hcnt'
      · intro kept hkept removed hrem hnotin
        rw [hresrows] at hkept
        have hkle : thr ≤ kept.bucket_start :=
          of_decide_eq_true (List.mem_filter.mp hkept).2
        have hrt1 : removed ∈ t1 := (List.mem_filter.mp hrem).1
        have hsurv : bucketSurvivesCap t1 removed = false := by
          cases hcase : bucketSurvivesCap t1 removed with
          | false => rfl
          | true =>
            exact absurd
              (by
                unfold cleanup_old_buckets
                rw [← ht1]
                exact List.mem_filter.mpr ⟨hrt1, hcase⟩)
              hnotin
        have hdec : decide (thr ≤ removed.bucket_start) = false := by
          rw [← hchar removed hrem]
          exact hsurv
        have hlt : removed.bucket_start < thr := by
          have := of_decide_eq_false hdec
          omega
        omega
    · intro hle
      rw [hres]
      apply List.filter_eq_self.mpr
      intro b hb
      unfold bucketSurvivesCap
      rw [hcoin_eq b hb, ← hrows, if_neg (by omega)]

/-- Witness for C4: thirteen APT rows above the cutoff leave exactly
twelve after cleanup, with every capped-out row older than every kept
row. -/
theorem c4_bucket_eviction_and_cap_witness :
    (∀ c : String,
      ((c4WitnessTable.filter (fun r => r.coin == c)).map (·.bucket_start)).Nodup) ∧
    12 < ((after_evict (-1000) c4WitnessTable).filter (fun r => r.coin == "APT")).length ∧
    (((cleanup_old_buckets (-1000) c4WitnessTable).filter
        (fun r => r.coin == "APT")).length = 12 ∧
     ∀ kept ∈ (cleanup_old_buckets (-1000) c4WitnessTable).filter
        (fun r => r.coin == "APT"),
       ∀ removed ∈ (after_evict (-1000) c4WitnessTable).filter
          (fun r => r.coin == "APT"),
         removed ∉ cleanup_old_buckets (-1000) c4WitnessTable →
         removed.bucket_start < kept.bucket_start) := by
  have hk : ∀ c : String,
      ((c4WitnessTable.filter (fun r => r.coin == c)).map (·.bucket_start)).Nodup := by
    intro c
    by_cases hc : c = "APT"
    · subst hc
      decide
    · have hnone : c4WitnessTable.filter (fun r => r.coin == c) = [] := by
        rw [List.filter_eq_nil_iff]
        intro a ha
        have hcoin : a.coin = "APT" := by
          simp only [c4WitnessTable, List.mem_map, List.mem_range] at ha
          obtain ⟨k, _, rfl⟩ := ha
          rfl
        rw [hcoin]
        simp only [beq_iff_eq]
        exact fun h => hc h.symm
      rw [hnone]
      simp
  exact ⟨hk, by decide,
    ((c4_bucket_eviction_and_cap (-1000) c4WitnessTable hk).2 "APT").1 (by decide)⟩

end Tasmil
